import Mathlib

/-!
Verification of the single-energy-hub MILP model builder and its
epsilon-constraint Pareto driver.

The development shallowly embeds the two model classes of the repository:

- namespace EH : the basic variant (EnergyHub.py) - sets, parameters,
  decision variables and every generated constraint family;
- namespace EHR : the retrofit variant (EnergyHubRetrofit.py), with the
  retrofit-scenario binaries, the bilinear big-M auxiliaries z1..z5, the
  simultaneous-charge/discharge (scd) constraints and the sanity-check
  definitions;
- namespace EHDrive : the control flow of the solve() drivers of both
  variants (cost-only, carbon-only and multi-objective mode), with the
  external MILP solver abstracted by the objective values it reports.

All quantities are rationals; index sets are explicit lists, mirroring the
Pyomo sets the source initializes from the input data.
-/

namespace EHDrive

/-- Semantics of numpy arange(start, stop, step) in exact arithmetic:
the values start + k * step for k below the ceiling of (stop - start) / step. -/
def arange (start stop step : ℚ) : List ℚ :=
  (List.range (Int.toNat ⌈(stop - start) / step⌉)).map
    (fun (k : ℕ) => start + (k : ℚ) * step)

/-- One invocation of the external solver: which of the two objectives is
active, and the value the mutable epsilon parameter holds at that solve. -/
structure SolveCall where
  costActive : Bool
  carbonActive : Bool
  eps : ℚ
deriving DecidableEq

/-- Initial value of the mutable epsilon parameter of the basic variant
(EnergyHub.py, epsilon initialized to 10 ** 8). -/
def eh_epsilon_init : ℚ := 10 ^ 8

/-- Initial value of the mutable epsilon parameter of the retrofit variant
(EnergyHubRetrofit.py, epsilon initialized to 0). -/
def ehr_epsilon_init : ℚ := 0

/-- Carbon-only mode (optim_mode 2), common control flow of both variants:
first solve with the carbon objective active and the cost objective off,
epsilon untouched; then epsilon is set to the recorded value and a second
solve minimizes cost.  The argument recorded is the value the driver stores
after the first solve (the reported carbon minimum in the basic variant,
that value times 1.01 in the retrofit variant). -/
def carbon_mode_core (eps0 recorded : ℚ) : List SolveCall :=
  [⟨false, true, eps0⟩, ⟨true, false, recorded⟩]

/-- Carbon-only driver of the basic variant: carb_min is the reported
carbon minimum itself (EnergyHub.py line 892-894). -/
def eh_carbon_mode (reported : ℚ) : List SolveCall :=
  carbon_mode_core eh_epsilon_init reported

/-- Carbon-only driver of the retrofit variant: carb_min is the reported
carbon minimum times 1.01 (EnergyHubRetrofit.py line 1812). -/
def ehr_carbon_mode (reported : ℚ) : List SolveCall :=
  carbon_mode_core ehr_epsilon_init (reported * (101 / 100))

/-- Cost-only mode (optim_mode 1) of the basic variant: a single solve
with the carbon objective deactivated and epsilon never written. -/
def eh_cost_mode : List SolveCall := [⟨true, false, eh_epsilon_init⟩]

/-- Cost-only mode (optim_mode 1) of the retrofit variant. -/
def ehr_cost_mode : List SolveCall := [⟨true, false, ehr_epsilon_init⟩]

/-- Multi-objective mode (optim_mode 3), common control flow of both
variants.  Returns the ordered list of solver invocations and the list of
solves whose results are stored into the results slots, in slot order.
carbMax is the total carbon recorded after the cost-anchor solve, carbMin
the value the driver records after the carbon-anchor solve. -/
def pareto_core (eps0 : ℚ) (npfp : ℕ) (carbMax carbMin : ℚ) :
    List SolveCall × List SolveCall :=
  let anchor1 : SolveCall := ⟨true, false, eps0⟩
  let anchor2 : SolveCall := ⟨false, true, eps0⟩
  if npfp = 0 then
    let lastCall : SolveCall := ⟨true, false, carbMin⟩
    ([anchor1, anchor2, lastCall], [anchor1, lastCall])
  else
    let interval := (carbMax - carbMin) / (npfp + 1)
    let steps := (arange carbMin carbMax interval).reverse
    let epsCalls := (List.range (npfp + 1)).map
      (fun j => SolveCall.mk true false (steps.getD j 0))
    (anchor1 :: anchor2 :: epsCalls, anchor1 :: epsCalls)

/-- Multi-objective driver of the basic variant: carb_min is recorded as
reported (EnergyHub.py line 955). -/
def eh_pareto (npfp : ℕ) (carbMax reported : ℚ) :
    List SolveCall × List SolveCall :=
  pareto_core eh_epsilon_init npfp carbMax reported

/-- Multi-objective driver of the retrofit variant: carb_min is recorded as
reported times 1.01 (EnergyHubRetrofit.py line 1877). -/
def ehr_pareto (npfp : ℕ) (carbMax reported : ℚ) :
    List SolveCall × List SolveCall :=
  pareto_core ehr_epsilon_init npfp carbMax (reported * (101 / 100))

/-- The epsilon schedule the specification describes: the values
cmin + k * (cmax - cmin) / (n + 1) for k = n, n - 1, ..., 0. -/
def epsSched (cmin cmax : ℚ) (n : ℕ) : List ℚ :=
  (List.range (n + 1)).map
    (fun (j : ℕ) => cmin + ((n : ℚ) - (j : ℚ)) * ((cmax - cmin) / (n + 1)))

end EHDrive

/-- Sum of a rational-valued function over an explicit index list. -/
def qsum {α : Type} (l : List α) (f : α → ℚ) : ℚ := (l.map f).sum

/-- Domain of a Pyomo Binary variable. -/
def IsBinary (q : ℚ) : Prop := q = 0 ∨ q = 1

/-- Domain of a Pyomo NonNegativeIntegers variable. -/
def IsNonNegInteger (q : ℚ) : Prop := 0 ≤ q ∧ q.den = 1

instance (q : ℚ) : Decidable (IsBinary q) := by unfold IsBinary; infer_instance

instance (q : ℚ) : Decidable (IsNonNegInteger q) := by
  unfold IsNonNegInteger; infer_instance

/-- The set of the 365 calendar days of a full year. -/
def calendarDays : List ℕ := List.range' 1 365

/-- Maximum of a list of naturals, as Python max over a Pyomo set of
positive naturals. -/
def maxList (l : List ℕ) : ℕ := l.foldr max 0

namespace EH

/-- Sets and parameters of the basic variant, as initialized from the
input module by EnergyHub.create_model. -/
structure Data where
  Days : List ℕ
  Time_steps : List ℕ
  Energy_carriers : List String
  Energy_carriers_imp : List String
  Energy_carriers_exp : List String
  Energy_carriers_dem : List String
  Conversion_tech : List String
  Solar_tech : List String
  Dispatchable_tech : List String
  Storage_tech : List String
  Demands : String → ℕ → ℕ → ℚ
  Number_of_days : ℕ → ℚ
  C_to_T : ℕ → ℕ
  Conv_factor : String → String → ℚ
  Minimum_part_load : String → ℚ
  Lifetime_tech : String → ℕ
  Storage_tech_coupling : String → String → ℚ
  Storage_max_charge : String → ℚ
  Storage_max_discharge : String → ℚ
  Storage_standing_losses : String → ℚ
  Storage_charging_eff : String → ℚ
  Storage_discharging_eff : String → ℚ
  Storage_max_cap : String → ℚ
  Lifetime_stor : String → ℕ
  Network_efficiency : String → ℚ
  Network_length : ℚ
  Network_lifetime : ℕ
  Import_prices : String → ℚ
  Export_prices : String → ℚ
  Linear_conv_costs : String → ℚ
  Fixed_conv_costs : String → ℚ
  Linear_stor_costs : String → ℚ
  Fixed_stor_costs : String → ℚ
  Network_inv_cost_per_m : ℚ
  Discount_rate : ℚ
  Carbon_factors_import : String → ℚ
  Roof_area : ℚ
  P_solar : ℕ → ℕ → ℚ

/-- Big M parameter of the basic variant (default 10 ** 6). -/
def BigM : ℚ := 10 ^ 6

/-- Capital recovery factor for conversion technologies. -/
def CRF_tech (D : Data) (c : String) : ℚ :=
  (D.Discount_rate * (1 + D.Discount_rate) ^ (D.Lifetime_tech c)) /
    ((1 + D.Discount_rate) ^ (D.Lifetime_tech c) - 1)

/-- Capital recovery factor for storage technologies. -/
def CRF_stor (D : Data) (s : String) : ℚ :=
  (D.Discount_rate * (1 + D.Discount_rate) ^ (D.Lifetime_stor s)) /
    ((1 + D.Discount_rate) ^ (D.Lifetime_stor s) - 1)

/-- Capital recovery factor for the thermal network. -/
def CRF_network (D : Data) : ℚ :=
  (D.Discount_rate * (1 + D.Discount_rate) ^ D.Network_lifetime) /
    ((1 + D.Discount_rate) ^ D.Network_lifetime - 1)

/-- Decision variables of the basic variant (an assignment of values). -/
structure Vars where
  P_import : String → ℕ → ℕ → ℚ
  P_conv : String → ℕ → ℕ → ℚ
  P_export : String → ℕ → ℕ → ℚ
  y_on : String → ℕ → ℕ → ℚ
  y_conv : String → ℚ
  Conv_cap : String → ℚ
  Qin : String → ℕ → ℕ → ℚ
  Qout : String → ℕ → ℕ → ℚ
  SoC : String → ℕ → ℕ → ℚ
  y_stor : String → ℚ
  Storage_cap : String → ℚ
  Import_cost : ℚ
  Export_profit : ℚ
  Investment_cost : ℚ
  Total_cost : ℚ
  Total_carbon : ℚ

/-- Variable domains declared on the Pyomo variables of the basic variant
(NonNegativeReals and Binary); tempRes selects the index set of SoC. -/
def Domains (tempRes : ℕ) (D : Data) (v : Vars) : Prop :=
  (∀ ec ∈ D.Energy_carriers_imp, ∀ d ∈ D.Days, ∀ t ∈ D.Time_steps,
    0 ≤ v.P_import ec d t) ∧
  (∀ c ∈ D.Conversion_tech, ∀ d ∈ D.Days, ∀ t ∈ D.Time_steps,
    0 ≤ v.P_conv c d t) ∧
  (∀ ec ∈ D.Energy_carriers_exp, ∀ d ∈ D.Days, ∀ t ∈ D.Time_steps,
    0 ≤ v.P_export ec d t) ∧
  (∀ c ∈ D.Conversion_tech, ∀ d ∈ D.Days, ∀ t ∈ D.Time_steps,
    IsBinary (v.y_on c d t)) ∧
  (∀ c ∈ D.Conversion_tech, IsBinary (v.y_conv c)) ∧
  (∀ c ∈ D.Conversion_tech, 0 ≤ v.Conv_cap c) ∧
  (∀ s ∈ D.Storage_tech, ∀ d ∈ D.Days, ∀ t ∈ D.Time_steps,
    0 ≤ v.Qin s d t) ∧
  (∀ s ∈ D.Storage_tech, ∀ d ∈ D.Days, ∀ t ∈ D.Time_steps,
    0 ≤ v.Qout s d t) ∧
  (∀ s ∈ D.Storage_tech, ∀ d ∈ (if tempRes = 3 then calendarDays else D.Days),
    ∀ t ∈ D.Time_steps, 0 ≤ v.SoC s d t) ∧
  (∀ s ∈ D.Storage_tech, IsBinary (v.y_stor s)) ∧
  (∀ s ∈ D.Storage_tech, 0 ≤ v.Storage_cap s) ∧
  0 ≤ v.Import_cost ∧ 0 ≤ v.Export_profit ∧ 0 ≤ v.Investment_cost ∧
  0 ≤ v.Total_cost ∧ 0 ≤ v.Total_carbon

/-- Load_balance_rule of the basic variant. -/
def Load_balance (D : Data) (v : Vars) : Prop :=
  ∀ ec ∈ D.Energy_carriers, ∀ d ∈ D.Days, ∀ t ∈ D.Time_steps,
    (if ec ∈ D.Energy_carriers_imp then v.P_import ec d t else 0) +
      qsum D.Conversion_tech (fun c => v.P_conv c d t * D.Conv_factor c ec) +
      qsum D.Storage_tech
        (fun s => D.Storage_tech_coupling s ec * (v.Qout s d t - v.Qin s d t))
    = (if ec ∈ D.Energy_carriers_dem then D.Demands ec d t else 0) /
        (if ec ∈ D.Energy_carriers_dem then D.Network_efficiency ec else 1) +
      (if ec ∈ D.Energy_carriers_exp then v.P_export ec d t else 0)

/-- Capacity_constraint_rule of the basic variant (skipped unless the
conversion factor is positive). -/
def Capacity_constraint (D : Data) (v : Vars) : Prop :=
  ∀ disp ∈ D.Dispatchable_tech, ∀ ec ∈ D.Energy_carriers,
    ∀ d ∈ D.Days, ∀ t ∈ D.Time_steps,
      0 < D.Conv_factor disp ec →
        v.P_conv disp d t * D.Conv_factor disp ec ≤ v.Conv_cap disp

/-- Solar_input_rule of the basic variant. -/
def Solar_input (D : Data) (v : Vars) : Prop :=
  ∀ sol ∈ D.Solar_tech, ∀ d ∈ D.Days, ∀ t ∈ D.Time_steps,
    v.P_conv sol d t = D.P_solar d t * v.Conv_cap sol

/-- Minimum_part_load_constr_rule1 of the basic variant. -/
def Minimum_part_load_constr1 (D : Data) (v : Vars) : Prop :=
  ∀ disp ∈ D.Dispatchable_tech, ∀ ec ∈ D.Energy_carriers,
    ∀ d ∈ D.Days, ∀ t ∈ D.Time_steps,
      0 < D.Conv_factor disp ec →
        v.P_conv disp d t * D.Conv_factor disp ec ≤ BigM * v.y_on disp d t

/-- Minimum_part_load_constr_rule2 of the basic variant. -/
def Minimum_part_load_constr2 (D : Data) (v : Vars) : Prop :=
  ∀ disp ∈ D.Dispatchable_tech, ∀ ec ∈ D.Energy_carriers,
    ∀ d ∈ D.Days, ∀ t ∈ D.Time_steps,
      0 < D.Conv_factor disp ec →
        D.Minimum_part_load disp * v.Conv_cap disp ≤
          v.P_conv disp d t * D.Conv_factor disp ec +
            BigM * (1 - v.y_on disp d t)

/-- Fixed_cost_constr_rule of the basic variant. -/
def Fixed_cost_constr (D : Data) (v : Vars) : Prop :=
  ∀ c ∈ D.Conversion_tech, v.Conv_cap c ≤ BigM * v.y_conv c

/-- Roof_area_non_violation_rule. -/
def Roof_area_non_violation (D : Data) (v : Vars) : Prop :=
  qsum D.Solar_tech (fun sol => v.Conv_cap sol) ≤ D.Roof_area

/-- Storage_balance_rule of the basic variant, literally: within a day the
state of charge chains to time step t - 1; at t = 1 it chains to t + 23 of
the same day (tempRes 1), of the previous day, or of day d + 364 at d = 1
(tempRes 2); tempRes 3 indexes the state of charge by calendar day and the
flows by the matched typical day C_to_T d. -/
def Storage_balance_rule (tempRes : ℕ) (D : Data) (v : Vars)
    (s : String) (d t : ℕ) : Prop :=
  if tempRes = 1 then
    if t ≠ 1 then
      v.SoC s d t = (1 - D.Storage_standing_losses s) * v.SoC s d (t - 1) +
        D.Storage_charging_eff s * v.Qin s d t -
        (1 / D.Storage_discharging_eff s) * v.Qout s d t
    else
      v.SoC s d t = (1 - D.Storage_standing_losses s) * v.SoC s d (t + 23) +
        D.Storage_charging_eff s * v.Qin s d t -
        (1 / D.Storage_discharging_eff s) * v.Qout s d t
  else if tempRes = 2 then
    if t ≠ 1 then
      v.SoC s d t = (1 - D.Storage_standing_losses s) * v.SoC s d (t - 1) +
        D.Storage_charging_eff s * v.Qin s d t -
        (1 / D.Storage_discharging_eff s) * v.Qout s d t
    else
      if d ≠ 1 then
        v.SoC s d t =
          (1 - D.Storage_standing_losses s) * v.SoC s (d - 1) (t + 23) +
          D.Storage_charging_eff s * v.Qin s d t -
          (1 / D.Storage_discharging_eff s) * v.Qout s d t
      else
        v.SoC s d t =
          (1 - D.Storage_standing_losses s) * v.SoC s (d + 364) (t + 23) +
          D.Storage_charging_eff s * v.Qin s d t -
          (1 / D.Storage_discharging_eff s) * v.Qout s d t
  else
    if t ≠ 1 then
      v.SoC s d t = (1 - D.Storage_standing_losses s) * v.SoC s d (t - 1) +
        D.Storage_charging_eff s * v.Qin s (D.C_to_T d) t -
        (1 / D.Storage_discharging_eff s) * v.Qout s (D.C_to_T d) t
    else
      if d ≠ 1 then
        v.SoC s d t =
          (1 - D.Storage_standing_losses s) * v.SoC s (d - 1) (t + 23) +
          D.Storage_charging_eff s * v.Qin s (D.C_to_T d) t -
          (1 / D.Storage_discharging_eff s) * v.Qout s (D.C_to_T d) t
      else
        v.SoC s d t =
          (1 - D.Storage_standing_losses s) * v.SoC s (d + 364) (t + 23) +
          D.Storage_charging_eff s * v.Qin s (D.C_to_T d) t -
          (1 / D.Storage_discharging_eff s) * v.Qout s (D.C_to_T d) t

/-- Storage_balance constraint family: indexed over Days for tempRes 1 and
2, over the calendar days for tempRes 3. -/
def Storage_balance (tempRes : ℕ) (D : Data) (v : Vars) : Prop :=
  ∀ s ∈ D.Storage_tech,
    ∀ d ∈ (if tempRes = 3 then calendarDays else D.Days),
      ∀ t ∈ D.Time_steps, Storage_balance_rule tempRes D v s d t

/-- Storage_charg_rate_constr_rule. -/
def Storage_charg_rate_constr (D : Data) (v : Vars) : Prop :=
  ∀ s ∈ D.Storage_tech, ∀ d ∈ D.Days, ∀ t ∈ D.Time_steps,
    v.Qin s d t ≤ D.Storage_max_charge s * v.Storage_cap s

/-- Storage_discharg_rate_constr_rule: the bound on Qout uses the
Storage_max_charge parameter. -/
def Storage_discharg_rate_constr (D : Data) (v : Vars) : Prop :=
  ∀ s ∈ D.Storage_tech, ∀ d ∈ D.Days, ∀ t ∈ D.Time_steps,
    v.Qout s d t ≤ D.Storage_max_charge s * v.Storage_cap s

/-- Storage_cap_constr_rule (indexed over Days in the basic variant for
every temporal resolution). -/
def Storage_cap_constr (D : Data) (v : Vars) : Prop :=
  ∀ s ∈ D.Storage_tech, ∀ d ∈ D.Days, ∀ t ∈ D.Time_steps,
    v.SoC s d t ≤ v.Storage_cap s

/-- Max_allowable_storage_cap_rule. -/
def Max_allowable_storage_cap (D : Data) (v : Vars) : Prop :=
  ∀ s ∈ D.Storage_tech, v.Storage_cap s ≤ D.Storage_max_cap s

/-- Fixed_cost_storage_rule. -/
def Fixed_cost_storage (D : Data) (v : Vars) : Prop :=
  ∀ s ∈ D.Storage_tech, v.Storage_cap s ≤ BigM * v.y_stor s

/-- Import_cost_rule. -/
def Import_cost_def (D : Data) (v : Vars) : Prop :=
  v.Import_cost = qsum D.Energy_carriers_imp (fun ec =>
    qsum D.Days (fun d => qsum D.Time_steps (fun t =>
      D.Import_prices ec * v.P_import ec d t * D.Number_of_days d)))

/-- Export_profit_rule. -/
def Export_profit_def (D : Data) (v : Vars) : Prop :=
  v.Export_profit = qsum D.Energy_carriers_exp (fun ec =>
    qsum D.Days (fun d => qsum D.Time_steps (fun t =>
      D.Export_prices ec * v.P_export ec d t * D.Number_of_days d)))

/-- Investment_cost_rule. -/
def Investment_cost_def (D : Data) (v : Vars) : Prop :=
  v.Investment_cost =
    qsum D.Conversion_tech (fun c =>
      (D.Fixed_conv_costs c * v.y_conv c + D.Linear_conv_costs c * v.Conv_cap c)
        * CRF_tech D c) +
    qsum D.Storage_tech (fun s =>
      (D.Fixed_stor_costs s * v.y_stor s + D.Linear_stor_costs s * v.Storage_cap s)
        * CRF_stor D s) +
    D.Network_inv_cost_per_m * D.Network_length * CRF_network D

/-- Total_cost_rule. -/
def Total_cost_def (v : Vars) : Prop :=
  v.Total_cost = v.Investment_cost + v.Import_cost - v.Export_profit

/-- Total_carbon_rule. -/
def Total_carbon_def (D : Data) (v : Vars) : Prop :=
  v.Total_carbon = qsum D.Energy_carriers_imp (fun ec =>
    qsum D.Days (fun d => qsum D.Time_steps (fun t =>
      D.Carbon_factors_import ec * v.P_import ec d t * D.Number_of_days d)))

/-- Carbon_constraint_rule: the total carbon is bounded by the mutable
epsilon parameter. -/
def Carbon_constraint (v : Vars) (eps : ℚ) : Prop := v.Total_carbon ≤ eps

/-- The complete generated constraint set of the basic variant. -/
def Constraints (tempRes : ℕ) (D : Data) (v : Vars) (eps : ℚ) : Prop :=
  Domains tempRes D v ∧ Load_balance D v ∧ Capacity_constraint D v ∧
  Solar_input D v ∧ Minimum_part_load_constr1 D v ∧
  Minimum_part_load_constr2 D v ∧ Fixed_cost_constr D v ∧
  Roof_area_non_violation D v ∧ Storage_balance tempRes D v ∧
  Storage_charg_rate_constr D v ∧ Storage_discharg_rate_constr D v ∧
  Storage_cap_constr D v ∧ Max_allowable_storage_cap D v ∧
  Fixed_cost_storage D v ∧ Import_cost_def D v ∧ Export_profit_def D v ∧
  Investment_cost_def D v ∧ Total_cost_def v ∧ Total_carbon_def D v ∧
  Carbon_constraint v eps

end EH

namespace EHR

/-- Sets and parameters of the retrofit variant, as initialized from the
input dictionary by EnergyHubRetrofit.create_model. -/
structure Data where
  Days : List ℕ
  Time_steps : List ℕ
  Energy_carriers : List String
  Energy_carriers_imp : List String
  Energy_carriers_exp : List String
  Energy_carriers_dem : List String
  Conversion_tech : List String
  Solar_tech : List String
  PV_tech : List String
  Dispatchable_tech : List String
  Storage_tech : List String
  Retrofit_scenarios : List String
  Demands : String → String → ℕ → ℕ → ℚ
  Number_of_days : String → ℕ → ℚ
  C_to_T : String → ℕ → ℕ
  Conv_factor : String → String → ℚ
  Minimum_part_load : String → ℚ
  Lifetime_tech : String → ℕ
  Storage_tech_coupling : String → String → ℚ
  Storage_max_charge : String → ℚ
  Storage_max_discharge : String → ℚ
  Storage_standing_losses : String → ℚ
  Storage_charging_eff : String → ℚ
  Storage_discharging_eff : String → ℚ
  Storage_max_cap : String → ℚ
  Lifetime_stor : String → ℕ
  Lifetime_retrofit : String → ℕ
  Network_efficiency : String → ℚ
  Network_length : ℚ
  Network_lifetime : ℕ
  Cost_CO2_certificates : ℚ
  Import_prices : String → ℚ
  Linear_conv_costs : String → ℚ
  Fixed_conv_costs : String → ℚ
  Linear_stor_costs : String → ℚ
  Fixed_stor_costs : String → ℚ
  Network_inv_cost_per_m : ℚ
  Retrofit_inv_costs : String → ℚ
  Discount_rate : ℚ
  Embodied_emissions_conversion_tech_linear : String → ℚ
  Embodied_emissions_conversion_tech_fixed : String → ℚ
  Embodied_emissions_storage_tech_linear : String → ℚ
  Embodied_emissions_storage_tech_fixed : String → ℚ
  Embodied_emissions_insulation : String → ℚ
  Carbon_benefit_CO2_certificates : ℚ
  Carbon_factors_import : String → ℚ
  Grid_intensity : String → ℕ → ℕ → ℚ
  Elec_import_prices : String → ℕ → ℕ → ℚ
  Elec_export_prices : String → ℕ → ℕ → ℚ
  Roof_area : ℚ
  P_solar : String → ℕ → ℕ → ℚ

/-- Big M parameter of the retrofit variant (default 10 ** 6). -/
def BigM : ℚ := 10 ^ 6

/-- Second big M parameter of the retrofit variant (default 10 ** 4). -/
def BigM_2 : ℚ := 10 ^ 4

/-- Minimum installable capacity parameter (default 10). -/
def min_install : ℚ := 10

/-- Tolerance parameter er of the scd constraints (1e-6). -/
def er : ℚ := 1 / 1000000

/-- Initial value of the mutable epsilon parameter of the retrofit variant:
the Param is created with initialize 0. -/
def epsilon_init : ℚ := 0

/-- Capital recovery factor for conversion technologies. -/
def CRF_tech (D : Data) (c : String) : ℚ :=
  (D.Discount_rate * (1 + D.Discount_rate) ^ (D.Lifetime_tech c)) /
    ((1 + D.Discount_rate) ^ (D.Lifetime_tech c) - 1)

/-- Capital recovery factor for storage technologies. -/
def CRF_stor (D : Data) (s : String) : ℚ :=
  (D.Discount_rate * (1 + D.Discount_rate) ^ (D.Lifetime_stor s)) /
    ((1 + D.Discount_rate) ^ (D.Lifetime_stor s) - 1)

/-- Capital recovery factor for the thermal network. -/
def CRF_network (D : Data) : ℚ :=
  (D.Discount_rate * (1 + D.Discount_rate) ^ D.Network_lifetime) /
    ((1 + D.Discount_rate) ^ D.Network_lifetime - 1)

/-- Capital recovery factor for the retrofit scenarios. -/
def CRF_retrofit (D : Data) (r : String) : ℚ :=
  (D.Discount_rate * (1 + D.Discount_rate) ^ (D.Lifetime_retrofit r)) /
    ((1 + D.Discount_rate) ^ (D.Lifetime_retrofit r) - 1)

/-- Decision variables of the retrofit variant (an assignment of values). -/
structure Vars where
  P_import : String → ℕ → ℕ → ℚ
  P_conv : String → ℕ → ℕ → ℚ
  P_export : String → ℕ → ℕ → ℚ
  y_on : String → ℕ → ℕ → ℚ
  y_conv : String → ℚ
  Conv_cap : String → ℚ
  Qin : String → ℕ → ℕ → ℚ
  Qout : String → ℕ → ℕ → ℚ
  SoC : String → ℕ → ℕ → ℚ
  y_stor : String → ℚ
  Storage_cap : String → ℚ
  y_retrofit : String → ℚ
  Number_CO2_certificates : ℚ
  Solar_self_consumption : String → ℕ → ℕ → ℚ
  Import_cost : ℚ
  Export_profit : ℚ
  Investment_cost : ℚ
  Total_cost : ℚ
  Total_carbon : ℚ
  Embodied_conv : String → ℚ
  Embodied_stor : String → ℚ
  Embodied_insulation : ℚ
  Cost_conv : String → ℚ
  Cost_stor : String → ℚ
  Cost_insulation : ℚ
  Elec_import_cost : ℚ
  Others_import_cost : ℚ
  Elec_import_emissions : ℚ
  Others_import_emissions : ℚ
  Elec_export_emissions : ℚ
  Elec_export_cost : ℚ
  z1 : String → String → ℕ → ℕ → ℚ
  z2 : String → String → ℕ → ℕ → ℚ
  z3 : String → String → ℚ
  z4 : String → String → ℕ → ℕ → ℚ
  z5 : String → String → ℕ → ℕ → ℚ
  QIin : String → ℕ → ℕ → ℚ
  QIout : String → ℕ → ℕ → ℚ
  z_scd : String → ℕ → ℕ → ℚ

/-- Variable domains declared on the Pyomo variables of the retrofit
variant; the auxiliaries z1..z5 and Embodied_insulation carry no domain. -/
def Domains (tempRes : ℕ) (D : Data) (v : Vars) : Prop :=
  (∀ ec ∈ D.Energy_carriers_imp, ∀ d ∈ D.Days, ∀ t ∈ D.Time_steps,
    0 ≤ v.P_import ec d t) ∧
  (∀ c ∈ D.Conversion_tech, ∀ d ∈ D.Days, ∀ t ∈ D.Time_steps,
    0 ≤ v.P_conv c d t) ∧
  (∀ ec ∈ D.Energy_carriers_exp, ∀ d ∈ D.Days, ∀ t ∈ D.Time_steps,
    0 ≤ v.P_export ec d t) ∧
  (∀ c ∈ D.Dispatchable_tech, ∀ d ∈ D.Days, ∀ t ∈ D.Time_steps,
    IsBinary (v.y_on c d t)) ∧
  (∀ c ∈ D.Conversion_tech, IsBinary (v.y_conv c)) ∧
  (∀ c ∈ D.Conversion_tech, 0 ≤ v.Conv_cap c) ∧
  (∀ s ∈ D.Storage_tech, ∀ d ∈ D.Days, ∀ t ∈ D.Time_steps,
    0 ≤ v.Qin s d t) ∧
  (∀ s ∈ D.Storage_tech, ∀ d ∈ D.Days, ∀ t ∈ D.Time_steps,
    0 ≤ v.Qout s d t) ∧
  (∀ s ∈ D.Storage_tech, ∀ d ∈ (if tempRes = 3 then calendarDays else D.Days),
    ∀ t ∈ D.Time_steps, 0 ≤ v.SoC s d t) ∧
  (∀ s ∈ D.Storage_tech, IsBinary (v.y_stor s)) ∧
  (∀ s ∈ D.Storage_tech, 0 ≤ v.Storage_cap s) ∧
  (∀ r ∈ D.Retrofit_scenarios, IsBinary (v.y_retrofit r)) ∧
  IsNonNegInteger v.Number_CO2_certificates ∧
  (∀ p ∈ D.PV_tech, ∀ d ∈ D.Days, ∀ t ∈ D.Time_steps,
    0 ≤ v.Solar_self_consumption p d t) ∧
  0 ≤ v.Import_cost ∧ 0 ≤ v.Export_profit ∧ 0 ≤ v.Investment_cost ∧
  0 ≤ v.Total_cost ∧ 0 ≤ v.Total_carbon ∧
  (∀ c ∈ D.Conversion_tech, 0 ≤ v.Embodied_conv c) ∧
  (∀ s ∈ D.Storage_tech, 0 ≤ v.Embodied_stor s) ∧
  (∀ c ∈ D.Conversion_tech, 0 ≤ v.Cost_conv c) ∧
  (∀ s ∈ D.Storage_tech, 0 ≤ v.Cost_stor s) ∧
  0 ≤ v.Cost_insulation ∧
  0 ≤ v.Elec_import_cost ∧ 0 ≤ v.Others_import_cost ∧
  0 ≤ v.Elec_import_emissions ∧ 0 ≤ v.Others_import_emissions ∧
  0 ≤ v.Elec_export_emissions ∧ 0 ≤ v.Elec_export_cost ∧
  (∀ s ∈ D.Storage_tech, ∀ d ∈ D.Days, ∀ t ∈ D.Time_steps,
    IsBinary (v.QIin s d t)) ∧
  (∀ s ∈ D.Storage_tech, ∀ d ∈ D.Days, ∀ t ∈ D.Time_steps,
    IsBinary (v.QIout s d t)) ∧
  (∀ s ∈ D.Storage_tech, ∀ d ∈ D.Days, ∀ t ∈ D.Time_steps,
    IsBinary (v.z_scd s d t))

end EHR

namespace EHR

/-- Load_balance_rule of the retrofit variant: the conversion sum runs over
all conversion technologies except PV, the PV contribution enters through
the solar self-consumption variable, the demand side is weighted by the
retrofit-selection binaries, and no export term appears. -/
def Load_balance (D : Data) (v : Vars) : Prop :=
  ∀ ec ∈ D.Energy_carriers, ∀ d ∈ D.Days, ∀ t ∈ D.Time_steps,
    (if ec ∈ D.Energy_carriers_imp then v.P_import ec d t else 0) +
      qsum (D.Conversion_tech.filter (fun c => c ≠ "PV"))
        (fun c => v.P_conv c d t * D.Conv_factor c ec) +
      qsum D.Storage_tech
        (fun s => D.Storage_tech_coupling s ec * (v.Qout s d t - v.Qin s d t)) +
      qsum (D.PV_tech.filter (fun sol => 0 < D.Conv_factor sol ec))
        (fun sol => v.Solar_self_consumption sol d t)
    = (if ec ∈ D.Energy_carriers_dem then
        qsum D.Retrofit_scenarios (fun r => v.y_retrofit r * D.Demands ec r d t)
      else 0) /
        (if ec ∈ D.Energy_carriers_dem then D.Network_efficiency ec else 1)

/-- Capacity_constraint_rule of the retrofit variant. -/
def Capacity_constraint (D : Data) (v : Vars) : Prop :=
  ∀ disp ∈ D.Dispatchable_tech, ∀ ec ∈ D.Energy_carriers,
    ∀ d ∈ D.Days, ∀ t ∈ D.Time_steps,
      0 < D.Conv_factor disp ec →
        v.P_conv disp d t * D.Conv_factor disp ec ≤ v.Conv_cap disp

/-- Min_installable_capacity_rule for conversion technologies. -/
def Min_installable_capacity (D : Data) (v : Vars) : Prop :=
  ∀ c ∈ D.Conversion_tech, min_install * v.y_conv c ≤ v.Conv_cap c

/-- Min_installable_capacity_rule_2 for storage technologies. -/
def Min_installable_capacity_2 (D : Data) (v : Vars) : Prop :=
  ∀ s ∈ D.Storage_tech, min_install * v.y_stor s ≤ v.Storage_cap s

/-- Solar_input_rule_initial: solar output equals radiation times the
z3 auxiliaries (the linearized capacity-selection products). -/
def Solar_input_initial (D : Data) (v : Vars) : Prop :=
  ∀ sol ∈ D.Solar_tech, ∀ d ∈ D.Days, ∀ t ∈ D.Time_steps,
    v.P_conv sol d t =
      qsum D.Retrofit_scenarios (fun r => D.P_solar r d t * v.z3 sol r)

/-- Solar_self_consumption_rule (constraint object Solar_input of the
retrofit variant): exported electricity equals PV production minus PV
self-consumption, generated once per exportable carrier. -/
def Solar_self_consumption_constr (D : Data) (v : Vars) : Prop :=
  ∀ _ec ∈ D.Energy_carriers_exp, ∀ d ∈ D.Days, ∀ t ∈ D.Time_steps,
    v.P_export "Elec" d t =
      v.P_conv "PV" d t - v.Solar_self_consumption "PV" d t

/-- Minimum_part_load_constr_rule1 of the retrofit variant. -/
def Minimum_part_load_constr1 (D : Data) (v : Vars) : Prop :=
  ∀ disp ∈ D.Dispatchable_tech, ∀ ec ∈ D.Energy_carriers,
    ∀ d ∈ D.Days, ∀ t ∈ D.Time_steps,
      0 < D.Conv_factor disp ec →
        v.P_conv disp d t * D.Conv_factor disp ec ≤ BigM * v.y_on disp d t

/-- Minimum_part_load_constr_rule2 of the retrofit variant. -/
def Minimum_part_load_constr2 (D : Data) (v : Vars) : Prop :=
  ∀ disp ∈ D.Dispatchable_tech, ∀ ec ∈ D.Energy_carriers,
    ∀ d ∈ D.Days, ∀ t ∈ D.Time_steps,
      0 < D.Conv_factor disp ec →
        D.Minimum_part_load disp * v.Conv_cap disp ≤
          v.P_conv disp d t * D.Conv_factor disp ec +
            BigM * (1 - v.y_on disp d t)

/-- Fixed_cost_constr_rule of the retrofit variant, using BigM_2. -/
def Fixed_cost_constr (D : Data) (v : Vars) : Prop :=
  ∀ c ∈ D.Conversion_tech, v.Conv_cap c ≤ BigM_2 * v.y_conv c

/-- Roof_area_non_violation_rule. -/
def Roof_area_non_violation (D : Data) (v : Vars) : Prop :=
  qsum D.Solar_tech (fun sol => v.Conv_cap sol) ≤ D.Roof_area

/-- Number_CO2_certificates_rule: at most 150 certificates. -/
def Number_CO2_certificates_constr (v : Vars) : Prop :=
  v.Number_CO2_certificates ≤ 150

/-- Storage_balance_rule of the retrofit variant, literally: within a day
the state of charge chains to time step t - 1; at t = 1 it chains to
t + max(Time_steps) - 1 of the same day (tempRes 1) or of the previous day,
with day 1 of tempRes 2 chaining to day d + 364 and day 1 of tempRes 3 to
day d + max(Calendar_days) - 1; in tempRes 3 the flows enter through the
z4/z5 auxiliaries at the matched typical day C_to_T ret d. -/
def Storage_balance_rule (tempRes : ℕ) (D : Data) (v : Vars)
    (s : String) (d t : ℕ) : Prop :=
  if tempRes = 1 then
    if t ≠ 1 then
      v.SoC s d t = (1 - D.Storage_standing_losses s) * v.SoC s d (t - 1) +
        D.Storage_charging_eff s * v.Qin s d t -
        (1 / D.Storage_discharging_eff s) * v.Qout s d t
    else
      v.SoC s d t =
        (1 - D.Storage_standing_losses s) *
          v.SoC s d (t + maxList D.Time_steps - 1) +
        D.Storage_charging_eff s * v.Qin s d t -
        (1 / D.Storage_discharging_eff s) * v.Qout s d t
  else if tempRes = 2 then
    if t ≠ 1 then
      v.SoC s d t = (1 - D.Storage_standing_losses s) * v.SoC s d (t - 1) +
        D.Storage_charging_eff s * v.Qin s d t -
        (1 / D.Storage_discharging_eff s) * v.Qout s d t
    else
      if d ≠ 1 then
        v.SoC s d t =
          (1 - D.Storage_standing_losses s) *
            v.SoC s (d - 1) (t + maxList D.Time_steps - 1) +
          D.Storage_charging_eff s * v.Qin s d t -
          (1 / D.Storage_discharging_eff s) * v.Qout s d t
      else
        v.SoC s d t =
          (1 - D.Storage_standing_losses s) *
            v.SoC s (d + 364) (t + maxList D.Time_steps - 1) +
          D.Storage_charging_eff s * v.Qin s d t -
          (1 / D.Storage_discharging_eff s) * v.Qout s d t
  else
    if t ≠ 1 then
      v.SoC s d t = (1 - D.Storage_standing_losses s) * v.SoC s d (t - 1) +
        D.Storage_charging_eff s *
          qsum D.Retrofit_scenarios (fun r => v.z4 s r (D.C_to_T r d) t) -
        (1 / D.Storage_discharging_eff s) *
          qsum D.Retrofit_scenarios (fun r => v.z5 s r (D.C_to_T r d) t)
    else
      if d ≠ 1 then
        v.SoC s d t =
          (1 - D.Storage_standing_losses s) *
            v.SoC s (d - 1) (t + maxList D.Time_steps - 1) +
          D.Storage_charging_eff s *
            qsum D.Retrofit_scenarios (fun r => v.z4 s r (D.C_to_T r d) t) -
          (1 / D.Storage_discharging_eff s) *
            qsum D.Retrofit_scenarios (fun r => v.z5 s r (D.C_to_T r d) t)
      else
        v.SoC s d t =
          (1 - D.Storage_standing_losses s) *
            v.SoC s (d + maxList calendarDays - 1)
              (t + maxList D.Time_steps - 1) +
          D.Storage_charging_eff s *
            qsum D.Retrofit_scenarios (fun r => v.z4 s r (D.C_to_T r d) t) -
          (1 / D.Storage_discharging_eff s) *
            qsum D.Retrofit_scenarios (fun r => v.z5 s r (D.C_to_T r d) t)

/-- Storage_balance constraint family of the retrofit variant. -/
def Storage_balance (tempRes : ℕ) (D : Data) (v : Vars) : Prop :=
  ∀ s ∈ D.Storage_tech,
    ∀ d ∈ (if tempRes = 3 then calendarDays else D.Days),
      ∀ t ∈ D.Time_steps, Storage_balance_rule tempRes D v s d t

/-- Storage_charg_rate_constr_rule. -/
def Storage_charg_rate_constr (D : Data) (v : Vars) : Prop :=
  ∀ s ∈ D.Storage_tech, ∀ d ∈ D.Days, ∀ t ∈ D.Time_steps,
    v.Qin s d t ≤ D.Storage_max_charge s * v.Storage_cap s

/-- Storage_discharg_rate_constr_rule: the bound on Qout uses the
Storage_max_charge parameter. -/
def Storage_discharg_rate_constr (D : Data) (v : Vars) : Prop :=
  ∀ s ∈ D.Storage_tech, ∀ d ∈ D.Days, ∀ t ∈ D.Time_steps,
    v.Qout s d t ≤ D.Storage_max_charge s * v.Storage_cap s

/-- Storage_cap_constr_rule (indexed by calendar days for tempRes 3). -/
def Storage_cap_constr (tempRes : ℕ) (D : Data) (v : Vars) : Prop :=
  ∀ s ∈ D.Storage_tech,
    ∀ d ∈ (if tempRes = 3 then calendarDays else D.Days),
      ∀ t ∈ D.Time_steps, v.SoC s d t ≤ v.Storage_cap s

/-- Max_allowable_storage_cap_rule. -/
def Max_allowable_storage_cap (D : Data) (v : Vars) : Prop :=
  ∀ s ∈ D.Storage_tech, v.Storage_cap s ≤ D.Storage_max_cap s

/-- Fixed_cost_storage_rule. -/
def Fixed_cost_storage (D : Data) (v : Vars) : Prop :=
  ∀ s ∈ D.Storage_tech, v.Storage_cap s ≤ BigM * v.y_stor s

/-- scd1_rule: the charging-indicator binary dominates Qin / 100. -/
def scd1_constr (D : Data) (v : Vars) : Prop :=
  ∀ s ∈ D.Storage_tech, ∀ d ∈ D.Days, ∀ t ∈ D.Time_steps,
    v.Qin s d t / 100 ≤ v.QIin s d t

/-- scd2_rule: the discharging-indicator binary dominates Qout / 100. -/
def scd2_constr (D : Data) (v : Vars) : Prop :=
  ∀ s ∈ D.Storage_tech, ∀ d ∈ D.Days, ∀ t ∈ D.Time_steps,
    v.Qout s d t / 100 ≤ v.QIout s d t

/-- scd3_rule. -/
def scd3_constr (D : Data) (v : Vars) : Prop :=
  ∀ s ∈ D.Storage_tech, ∀ d ∈ D.Days, ∀ t ∈ D.Time_steps,
    v.QIin s d t ≤ 1 - er + v.Qin s d t / 100

/-- scd4_rule. -/
def scd4_constr (D : Data) (v : Vars) : Prop :=
  ∀ s ∈ D.Storage_tech, ∀ d ∈ D.Days, ∀ t ∈ D.Time_steps,
    v.QIout s d t ≤ 1 - er + v.Qout s d t / 100

/-- scd5_rule. -/
def scd5_constr (D : Data) (v : Vars) : Prop :=
  ∀ s ∈ D.Storage_tech, ∀ d ∈ D.Days, ∀ t ∈ D.Time_steps,
    1 - v.QIin s d t ≤ v.z_scd s d t

/-- scd6_rule. -/
def scd6_constr (D : Data) (v : Vars) : Prop :=
  ∀ s ∈ D.Storage_tech, ∀ d ∈ D.Days, ∀ t ∈ D.Time_steps,
    1 - v.QIout s d t ≤ v.z_scd s d t

/-- scd7_rule. -/
def scd7_constr (D : Data) (v : Vars) : Prop :=
  ∀ s ∈ D.Storage_tech, ∀ d ∈ D.Days, ∀ t ∈ D.Time_steps,
    v.z_scd s d t ≤ 2 - v.QIin s d t - v.QIout s d t

/-- scd8_rule: the auxiliary z_scd is fixed to 1. -/
def scd8_constr (D : Data) (v : Vars) : Prop :=
  ∀ s ∈ D.Storage_tech, ∀ d ∈ D.Days, ∀ t ∈ D.Time_steps,
    v.z_scd s d t = 1

/-- One_retrofit_state_rule: the retrofit-selection binaries sum to 1. -/
def One_retrofit_state (D : Data) (v : Vars) : Prop :=
  qsum D.Retrofit_scenarios (fun r => v.y_retrofit r) = 1

/-- Embodied_insulation_rule. -/
def Embodied_insulation_constr (D : Data) (v : Vars) : Prop :=
  v.Embodied_insulation = qsum D.Retrofit_scenarios (fun r =>
    D.Embodied_emissions_insulation r * v.y_retrofit r /
      (D.Lifetime_retrofit r : ℚ))

/-- Cost_insulation_rule. -/
def Cost_insulation_constr (D : Data) (v : Vars) : Prop :=
  v.Cost_insulation = qsum D.Retrofit_scenarios (fun r =>
    v.y_retrofit r * D.Retrofit_inv_costs r * CRF_retrofit D r)

/-- Embodied_conv_rule. -/
def Embodied_conv_constr (D : Data) (v : Vars) : Prop :=
  ∀ c ∈ D.Conversion_tech,
    v.Embodied_conv c =
      v.y_conv c * D.Embodied_emissions_conversion_tech_fixed c +
        D.Embodied_emissions_conversion_tech_linear c * v.Conv_cap c

/-- Embodied_stor_rule. -/
def Embodied_stor_constr (D : Data) (v : Vars) : Prop :=
  ∀ s ∈ D.Storage_tech,
    v.Embodied_stor s =
      v.y_stor s * D.Embodied_emissions_storage_tech_fixed s +
        D.Embodied_emissions_storage_tech_linear s * v.Storage_cap s

/-- Cost_conv_rule. -/
def Cost_conv_constr (D : Data) (v : Vars) : Prop :=
  ∀ c ∈ D.Conversion_tech,
    v.Cost_conv c =
      (D.Fixed_conv_costs c * v.y_conv c + D.Linear_conv_costs c * v.Conv_cap c)
        * CRF_tech D c

/-- Cost_stor_rule. -/
def Cost_stor_constr (D : Data) (v : Vars) : Prop :=
  ∀ s ∈ D.Storage_tech,
    v.Cost_stor s =
      (D.Fixed_stor_costs s * v.y_stor s + D.Linear_stor_costs s * v.Storage_cap s)
        * CRF_stor D s

/-- Elec_import_cost_rule: electricity import cost over the z1 auxiliaries. -/
def Elec_import_cost_constr (D : Data) (v : Vars) : Prop :=
  v.Elec_import_cost =
    qsum (D.Energy_carriers_imp.filter (fun ec => ec = "Elec")) (fun ec =>
      qsum D.Retrofit_scenarios (fun r => qsum D.Days (fun d =>
        qsum D.Time_steps (fun t =>
          D.Elec_import_prices r d t * D.Number_of_days r d * v.z1 ec r d t))))

/-- Others_import_cost_rule: non-electricity import cost over z1. -/
def Others_import_cost_constr (D : Data) (v : Vars) : Prop :=
  v.Others_import_cost =
    qsum (D.Energy_carriers_imp.filter (fun ec => ec ≠ "Elec")) (fun ec =>
      qsum D.Retrofit_scenarios (fun r => qsum D.Days (fun d =>
        qsum D.Time_steps (fun t =>
          D.Import_prices ec * D.Number_of_days r d * v.z1 ec r d t))))

/-- Elec_export_cost_rule. -/
def Elec_export_cost_constr (D : Data) (v : Vars) : Prop :=
  v.Elec_export_cost =
    qsum D.Energy_carriers_exp (fun ec =>
      qsum D.Retrofit_scenarios (fun r => qsum D.Days (fun d =>
        qsum D.Time_steps (fun t =>
          D.Elec_export_prices r d t * D.Number_of_days r d * v.z2 ec r d t))))

/-- Elec_import_emissions_rule. -/
def Elec_import_emissions_constr (D : Data) (v : Vars) : Prop :=
  v.Elec_import_emissions =
    qsum (D.Energy_carriers_imp.filter (fun ec => ec = "Elec")) (fun ec =>
      qsum D.Retrofit_scenarios (fun r => qsum D.Days (fun d =>
        qsum D.Time_steps (fun t =>
          D.Grid_intensity r d t * D.Number_of_days r d * v.z1 ec r d t))))

/-- Others_import_emissions_rule. -/
def Others_import_emissions_constr (D : Data) (v : Vars) : Prop :=
  v.Others_import_emissions =
    qsum (D.Energy_carriers_imp.filter (fun ec => ec ≠ "Elec")) (fun ec =>
      qsum D.Retrofit_scenarios (fun r => qsum D.Days (fun d =>
        qsum D.Time_steps (fun t =>
          D.Carbon_factors_import ec * D.Number_of_days r d * v.z1 ec r d t))))

/-- Elec_export_emissions_rule. -/
def Elec_export_emissions_constr (D : Data) (v : Vars) : Prop :=
  v.Elec_export_emissions =
    qsum D.Energy_carriers_exp (fun ec =>
      qsum D.Retrofit_scenarios (fun r => qsum D.Days (fun d =>
        qsum D.Time_steps (fun t =>
          D.Grid_intensity r d t * D.Number_of_days r d * v.z2 ec r d t))))

/-- Import_cost_rule of the retrofit variant: hourly electricity prices for
the Elec carrier plus flat prices for the other carriers, over z1. -/
def Import_cost_def (D : Data) (v : Vars) : Prop :=
  v.Import_cost =
    qsum (D.Energy_carriers_imp.filter (fun ec => ec = "Elec")) (fun ec =>
      qsum D.Retrofit_scenarios (fun r => qsum D.Days (fun d =>
        qsum D.Time_steps (fun t =>
          D.Elec_import_prices r d t * D.Number_of_days r d * v.z1 ec r d t)))) +
    qsum (D.Energy_carriers_imp.filter (fun ec => ec ≠ "Elec")) (fun ec =>
      qsum D.Retrofit_scenarios (fun r => qsum D.Days (fun d =>
        qsum D.Time_steps (fun t =>
          D.Import_prices ec * D.Number_of_days r d * v.z1 ec r d t))))

/-- Export_profit_rule of the retrofit variant, over z2. -/
def Export_profit_def (D : Data) (v : Vars) : Prop :=
  v.Export_profit =
    qsum D.Energy_carriers_exp (fun ec =>
      qsum D.Retrofit_scenarios (fun r => qsum D.Days (fun d =>
        qsum D.Time_steps (fun t =>
          D.Elec_export_prices r d t * D.Number_of_days r d * v.z2 ec r d t))))

/-- Investment_cost_rule of the retrofit variant, including the retrofit
investment. -/
def Investment_cost_def (D : Data) (v : Vars) : Prop :=
  v.Investment_cost =
    qsum D.Conversion_tech (fun c =>
      (D.Fixed_conv_costs c * v.y_conv c + D.Linear_conv_costs c * v.Conv_cap c)
        * CRF_tech D c) +
    qsum D.Storage_tech (fun s =>
      (D.Fixed_stor_costs s * v.y_stor s + D.Linear_stor_costs s * v.Storage_cap s)
        * CRF_stor D s) +
    D.Network_inv_cost_per_m * D.Network_length * CRF_network D +
    qsum D.Retrofit_scenarios (fun r =>
      v.y_retrofit r * D.Retrofit_inv_costs r * CRF_retrofit D r)

/-- Total_cost_rule of the retrofit variant, including certificate cost. -/
def Total_cost_def (D : Data) (v : Vars) : Prop :=
  v.Total_cost =
    v.Investment_cost + v.Import_cost - v.Export_profit +
      v.Number_CO2_certificates * D.Cost_CO2_certificates

/-- Total_carbon_rule of the retrofit variant: grid-intensity-weighted
electricity imports plus carbon-factor-weighted other imports, minus
export credit and certificate benefit, plus embodied emissions of
insulation, conversion and storage technologies. -/
def Total_carbon_def (D : Data) (v : Vars) : Prop :=
  v.Total_carbon =
    qsum (D.Energy_carriers_imp.filter (fun ec => ec = "Elec")) (fun ec =>
      qsum D.Retrofit_scenarios (fun r => qsum D.Days (fun d =>
        qsum D.Time_steps (fun t =>
          D.Grid_intensity r d t * D.Number_of_days r d * v.z1 ec r d t)))) +
    qsum (D.Energy_carriers_imp.filter (fun ec => ec ≠ "Elec")) (fun ec =>
      qsum D.Retrofit_scenarios (fun r => qsum D.Days (fun d =>
        qsum D.Time_steps (fun t =>
          D.Carbon_factors_import ec * D.Number_of_days r d * v.z1 ec r d t)))) -
    qsum D.Energy_carriers_exp (fun ec =>
      qsum D.Retrofit_scenarios (fun r => qsum D.Days (fun d =>
        qsum D.Time_steps (fun t =>
          D.Grid_intensity r d t * D.Number_of_days r d * v.z2 ec r d t)))) -
    v.Number_CO2_certificates * D.Carbon_benefit_CO2_certificates +
    qsum D.Retrofit_scenarios (fun r =>
      D.Embodied_emissions_insulation r / (D.Lifetime_retrofit r : ℚ) *
        v.y_retrofit r) +
    qsum D.Conversion_tech (fun c =>
      (D.Embodied_emissions_conversion_tech_fixed c * v.y_conv c +
        D.Embodied_emissions_conversion_tech_linear c * v.Conv_cap c) /
          (D.Lifetime_tech c : ℚ)) +
    qsum D.Storage_tech (fun s =>
      (D.Embodied_emissions_storage_tech_fixed s * v.y_stor s +
        D.Embodied_emissions_storage_tech_linear s * v.Storage_cap s) /
          (D.Lifetime_stor s : ℚ))

/-- Carbon_constraint_rule of the retrofit variant. -/
def Carbon_constraint (v : Vars) (eps : ℚ) : Prop := v.Total_carbon ≤ eps

/-- The four big-M linearization inequalities z1_rule_1 .. z1_rule_4 for
the product P_import * y_retrofit. -/
def z1_rules (D : Data) (v : Vars) : Prop :=
  ∀ ec ∈ D.Energy_carriers_imp, ∀ r ∈ D.Retrofit_scenarios,
    ∀ d ∈ D.Days, ∀ t ∈ D.Time_steps,
      0 ≤ v.z1 ec r d t ∧
      v.z1 ec r d t ≤ BigM * v.y_retrofit r ∧
      0 ≤ v.P_import ec d t - v.z1 ec r d t ∧
      v.P_import ec d t - v.z1 ec r d t ≤ BigM * (1 - v.y_retrofit r)

/-- The four big-M linearization inequalities z2_rule_1 .. z2_rule_4 for
the product P_export * y_retrofit. -/
def z2_rules (D : Data) (v : Vars) : Prop :=
  ∀ ec ∈ D.Energy_carriers_exp, ∀ r ∈ D.Retrofit_scenarios,
    ∀ d ∈ D.Days, ∀ t ∈ D.Time_steps,
      0 ≤ v.z2 ec r d t ∧
      v.z2 ec r d t ≤ BigM * v.y_retrofit r ∧
      0 ≤ v.P_export ec d t - v.z2 ec r d t ∧
      v.P_export ec d t - v.z2 ec r d t ≤ BigM * (1 - v.y_retrofit r)

/-- The four big-M linearization inequalities z3_rule_1 .. z3_rule_4 for
the product Conv_cap * y_retrofit of solar technologies. -/
def z3_rules (D : Data) (v : Vars) : Prop :=
  ∀ sol ∈ D.Solar_tech, ∀ r ∈ D.Retrofit_scenarios,
    0 ≤ v.z3 sol r ∧
    v.z3 sol r ≤ BigM * v.y_retrofit r ∧
    0 ≤ v.Conv_cap sol - v.z3 sol r ∧
    v.Conv_cap sol - v.z3 sol r ≤ BigM * (1 - v.y_retrofit r)

/-- The four big-M linearization inequalities z4_rule_1 .. z4_rule_4 for
the product Qin * y_retrofit. -/
def z4_rules (D : Data) (v : Vars) : Prop :=
  ∀ s ∈ D.Storage_tech, ∀ r ∈ D.Retrofit_scenarios,
    ∀ d ∈ D.Days, ∀ t ∈ D.Time_steps,
      0 ≤ v.z4 s r d t ∧
      v.z4 s r d t ≤ BigM * v.y_retrofit r ∧
      0 ≤ v.Qin s d t - v.z4 s r d t ∧
      v.Qin s d t - v.z4 s r d t ≤ BigM * (1 - v.y_retrofit r)

/-- The four big-M linearization inequalities z5_rule_1 .. z5_rule_4 for
the product Qout * y_retrofit. -/
def z5_rules (D : Data) (v : Vars) : Prop :=
  ∀ s ∈ D.Storage_tech, ∀ r ∈ D.Retrofit_scenarios,
    ∀ d ∈ D.Days, ∀ t ∈ D.Time_steps,
      0 ≤ v.z5 s r d t ∧
      v.z5 s r d t ≤ BigM * v.y_retrofit r ∧
      0 ≤ v.Qout s d t - v.z5 s r d t ∧
      v.Qout s d t - v.z5 s r d t ≤ BigM * (1 - v.y_retrofit r)

/-- All generated constraints of the retrofit variant except the carbon
upper bound. -/
def ConstraintsExceptCarbon (tempRes : ℕ) (D : Data) (v : Vars) : Prop :=
  Domains tempRes D v ∧ Load_balance D v ∧ Capacity_constraint D v ∧
  Min_installable_capacity D v ∧ Min_installable_capacity_2 D v ∧
  Solar_input_initial D v ∧ Solar_self_consumption_constr D v ∧
  Minimum_part_load_constr1 D v ∧ Minimum_part_load_constr2 D v ∧
  Fixed_cost_constr D v ∧ Roof_area_non_violation D v ∧
  Number_CO2_certificates_constr v ∧ Storage_balance tempRes D v ∧
  Storage_charg_rate_constr D v ∧ Storage_discharg_rate_constr D v ∧
  Storage_cap_constr tempRes D v ∧ Max_allowable_storage_cap D v ∧
  Fixed_cost_storage D v ∧
  scd1_constr D v ∧ scd2_constr D v ∧ scd3_constr D v ∧ scd4_constr D v ∧
  scd5_constr D v ∧ scd6_constr D v ∧ scd7_constr D v ∧ scd8_constr D v ∧
  One_retrofit_state D v ∧
  Embodied_insulation_constr D v ∧ Cost_insulation_constr D v ∧
  Embodied_conv_constr D v ∧ Embodied_stor_constr D v ∧
  Cost_conv_constr D v ∧ Cost_stor_constr D v ∧
  Elec_import_cost_constr D v ∧ Others_import_cost_constr D v ∧
  Elec_export_cost_constr D v ∧ Elec_import_emissions_constr D v ∧
  Others_import_emissions_constr D v ∧ Elec_export_emissions_constr D v ∧
  Import_cost_def D v ∧ Export_profit_def D v ∧ Investment_cost_def D v ∧
  Total_cost_def D v ∧ Total_carbon_def D v ∧
  z1_rules D v ∧ z2_rules D v ∧ z3_rules D v ∧ z4_rules D v ∧ z5_rules D v

/-- The complete generated constraint set of the retrofit variant. -/
def Constraints (tempRes : ℕ) (D : Data) (v : Vars) (eps : ℚ) : Prop :=
  ConstraintsExceptCarbon tempRes D v ∧ Carbon_constraint v eps

end EHR

namespace EH

/-- Energy-balance equality as the specification claims it for the basic
variant: imports (if importable) plus conversion net output plus storage
net discharge equals demand over network efficiency (if demanded) plus
exports (if exportable). -/
def Load_balance_as_claimed (D : Data) (v : Vars) : Prop :=
  ∀ ec ∈ D.Energy_carriers, ∀ d ∈ D.Days, ∀ t ∈ D.Time_steps,
    (if ec ∈ D.Energy_carriers_imp then v.P_import ec d t else 0) +
      qsum D.Conversion_tech (fun c => v.P_conv c d t * D.Conv_factor c ec) +
      qsum D.Storage_tech
        (fun s => D.Storage_tech_coupling s ec * (v.Qout s d t - v.Qin s d t))
    = (if ec ∈ D.Energy_carriers_dem then D.Demands ec d t else 0) /
        (if ec ∈ D.Energy_carriers_dem then D.Network_efficiency ec else 1) +
      (if ec ∈ D.Energy_carriers_exp then v.P_export ec d t else 0)

/-- Data instance whose fields are all trivial; concrete instances for the
witnesses are built from it by updating the relevant fields. -/
def trivialData : Data where
  Days := [1]
  Time_steps := [1]
  Energy_carriers := []
  Energy_carriers_imp := []
  Energy_carriers_exp := []
  Energy_carriers_dem := []
  Conversion_tech := []
  Solar_tech := []
  Dispatchable_tech := []
  Storage_tech := []
  Demands := fun _ _ _ => 0
  Number_of_days := fun _ => 1
  C_to_T := fun _ => 1
  Conv_factor := fun _ _ => 0
  Minimum_part_load := fun _ => 0
  Lifetime_tech := fun _ => 1
  Storage_tech_coupling := fun _ _ => 0
  Storage_max_charge := fun _ => 0
  Storage_max_discharge := fun _ => 0
  Storage_standing_losses := fun _ => 0
  Storage_charging_eff := fun _ => 1
  Storage_discharging_eff := fun _ => 1
  Storage_max_cap := fun _ => 0
  Lifetime_stor := fun _ => 1
  Network_efficiency := fun _ => 1
  Network_length := 0
  Network_lifetime := 1
  Import_prices := fun _ => 0
  Export_prices := fun _ => 0
  Linear_conv_costs := fun _ => 0
  Fixed_conv_costs := fun _ => 0
  Linear_stor_costs := fun _ => 0
  Fixed_stor_costs := fun _ => 0
  Network_inv_cost_per_m := 0
  Discount_rate := 1
  Carbon_factors_import := fun _ => 0
  Roof_area := 0
  P_solar := fun _ _ => 0

/-- Assignment with every variable equal to zero. -/
def trivialVars : Vars where
  P_import := fun _ _ _ => 0
  P_conv := fun _ _ _ => 0
  P_export := fun _ _ _ => 0
  y_on := fun _ _ _ => 0
  y_conv := fun _ => 0
  Conv_cap := fun _ => 0
  Qin := fun _ _ _ => 0
  Qout := fun _ _ _ => 0
  SoC := fun _ _ _ => 0
  y_stor := fun _ => 0
  Storage_cap := fun _ => 0
  Import_cost := 0
  Export_profit := 0
  Investment_cost := 0
  Total_cost := 0
  Total_carbon := 0

/-- Concrete basic-variant instance with one storage technology over the
full 24-step, 365-day index sets. -/
def chainData : Data :=
  { trivialData with
      Time_steps := List.range' 1 24
      Days := List.range' 1 365
      Storage_tech := ["Bat"] }

end EH

namespace EHR

/-- Energy-balance equality as the specification claims it for the
extended variant: imports (if importable) plus conversion net output
summed over all conversion technologies plus storage net discharge plus
the solar self-consumption credit equals demand over network efficiency
(if demanded) plus exports (if exportable). -/
def Load_balance_as_claimed (D : Data) (v : Vars) : Prop :=
  ∀ ec ∈ D.Energy_carriers, ∀ d ∈ D.Days, ∀ t ∈ D.Time_steps,
    (if ec ∈ D.Energy_carriers_imp then v.P_import ec d t else 0) +
      qsum D.Conversion_tech (fun c => v.P_conv c d t * D.Conv_factor c ec) +
      qsum D.Storage_tech
        (fun s => D.Storage_tech_coupling s ec * (v.Qout s d t - v.Qin s d t)) +
      qsum (D.PV_tech.filter (fun sol => 0 < D.Conv_factor sol ec))
        (fun sol => v.Solar_self_consumption sol d t)
    = (if ec ∈ D.Energy_carriers_dem then
        qsum D.Retrofit_scenarios (fun r => v.y_retrofit r * D.Demands ec r d t)
      else 0) /
        (if ec ∈ D.Energy_carriers_dem then D.Network_efficiency ec else 1) +
      (if ec ∈ D.Energy_carriers_exp then v.P_export ec d t else 0)

/-- Data instance whose fields are all trivial; concrete instances for the
witnesses and counterexamples are built from it by updating fields. -/
def trivialData : Data where
  Days := [1]
  Time_steps := [1]
  Energy_carriers := []
  Energy_carriers_imp := []
  Energy_carriers_exp := []
  Energy_carriers_dem := []
  Conversion_tech := []
  Solar_tech := []
  PV_tech := []
  Dispatchable_tech := []
  Storage_tech := []
  Retrofit_scenarios := ["R1"]
  Demands := fun _ _ _ _ => 0
  Number_of_days := fun _ _ => 1
  C_to_T := fun _ _ => 1
  Conv_factor := fun _ _ => 0
  Minimum_part_load := fun _ => 0
  Lifetime_tech := fun _ => 1
  Storage_tech_coupling := fun _ _ => 0
  Storage_max_charge := fun _ => 0
  Storage_max_discharge := fun _ => 0
  Storage_standing_losses := fun _ => 0
  Storage_charging_eff := fun _ => 1
  Storage_discharging_eff := fun _ => 1
  Storage_max_cap := fun _ => 0
  Lifetime_stor := fun _ => 1
  Lifetime_retrofit := fun _ => 1
  Network_efficiency := fun _ => 1
  Network_length := 0
  Network_lifetime := 1
  Cost_CO2_certificates := 0
  Import_prices := fun _ => 0
  Linear_conv_costs := fun _ => 0
  Fixed_conv_costs := fun _ => 0
  Linear_stor_costs := fun _ => 0
  Fixed_stor_costs := fun _ => 0
  Network_inv_cost_per_m := 0
  Retrofit_inv_costs := fun _ => 0
  Discount_rate := 1
  Embodied_emissions_conversion_tech_linear := fun _ => 0
  Embodied_emissions_conversion_tech_fixed := fun _ => 0
  Embodied_emissions_storage_tech_linear := fun _ => 0
  Embodied_emissions_storage_tech_fixed := fun _ => 0
  Embodied_emissions_insulation := fun _ => 0
  Carbon_benefit_CO2_certificates := 0
  Carbon_factors_import := fun _ => 0
  Grid_intensity := fun _ _ _ => 0
  Elec_import_prices := fun _ _ _ => 0
  Elec_export_prices := fun _ _ _ => 0
  Roof_area := 0
  P_solar := fun _ _ _ => 0

/-- Assignment with every variable equal to zero. -/
def trivialVars : Vars where
  P_import := fun _ _ _ => 0
  P_conv := fun _ _ _ => 0
  P_export := fun _ _ _ => 0
  y_on := fun _ _ _ => 0
  y_conv := fun _ => 0
  Conv_cap := fun _ => 0
  Qin := fun _ _ _ => 0
  Qout := fun _ _ _ => 0
  SoC := fun _ _ _ => 0
  y_stor := fun _ => 0
  Storage_cap := fun _ => 0
  y_retrofit := fun _ => 0
  Number_CO2_certificates := 0
  Solar_self_consumption := fun _ _ _ => 0
  Import_cost := 0
  Export_profit := 0
  Investment_cost := 0
  Total_cost := 0
  Total_carbon := 0
  Embodied_conv := fun _ => 0
  Embodied_stor := fun _ => 0
  Embodied_insulation := 0
  Cost_conv := fun _ => 0
  Cost_stor := fun _ => 0
  Cost_insulation := 0
  Elec_import_cost := 0
  Others_import_cost := 0
  Elec_import_emissions := 0
  Others_import_emissions := 0
  Elec_export_emissions := 0
  Elec_export_cost := 0
  z1 := fun _ _ _ _ => 0
  z2 := fun _ _ _ _ => 0
  z3 := fun _ _ => 0
  z4 := fun _ _ _ _ => 0
  z5 := fun _ _ _ _ => 0
  QIin := fun _ _ _ => 0
  QIout := fun _ _ _ => 0
  z_scd := fun _ _ _ => 0

/-- Retrofit instance for the energy-balance comparison: one exportable,
demanded carrier Elec and the PV technology producing into it. -/
def balanceData : Data :=
  { trivialData with
      Energy_carriers := ["Elec"]
      Energy_carriers_exp := ["Elec"]
      Energy_carriers_dem := ["Elec"]
      Conversion_tech := ["PV"]
      Solar_tech := ["PV"]
      PV_tech := ["PV"]
      Conv_factor := fun c ec => if c = "PV" then if ec = "Elec" then 1 else 0 else 0
      Demands := fun _ _ _ _ => 2 }

/-- Assignment whose PV production is partly self-consumed and partly
exported; it satisfies the generated retrofit energy balance. -/
def balanceVars : Vars :=
  { trivialVars with
      P_conv := fun c _ _ => if c = "PV" then 7 else 0
      Solar_self_consumption := fun _ _ _ => 2
      P_export := fun _ _ _ => 5
      y_retrofit := fun _ => 1 }

/-- Retrofit instance with a single imported carrier Gas of unit demand
and unit carbon factor: every feasible point must import, so the total
carbon of any assignment meeting the demand is positive. -/
def gasData : Data :=
  { trivialData with
      Energy_carriers := ["Gas"]
      Energy_carriers_imp := ["Gas"]
      Energy_carriers_dem := ["Gas"]
      Demands := fun _ _ _ _ => 1
      Carbon_factors_import := fun _ => 1 }

/-- Assignment meeting the gas demand by importing one unit; it satisfies
every generated constraint of the retrofit variant except the carbon
upper bound, and its total carbon is 1. -/
def gasVars : Vars :=
  { trivialVars with
      P_import := fun _ _ _ => 1
      z1 := fun _ _ _ _ => 1
      y_retrofit := fun _ => 1
      Total_carbon := 1
      Others_import_emissions := 1 }

/-- Two-scenario instance for the exclusivity witness. -/
def twoRetData : Data :=
  { trivialData with Retrofit_scenarios := ["R1", "R2"] }

/-- Assignment selecting exactly the first retrofit scenario. -/
def twoRetVars : Vars :=
  { trivialVars with y_retrofit := fun r => if r = "R1" then 1 else 0 }

/-- Instance for the linearization witness: one importable carrier. -/
def linData : Data :=
  { trivialData with
      Energy_carriers := ["Gas"]
      Energy_carriers_imp := ["Gas"] }

/-- Assignment with the scenario selected and z1 equal to the import. -/
def linVars : Vars :=
  { trivialVars with
      P_import := fun _ _ _ => 3
      z1 := fun _ _ _ _ => 3
      y_retrofit := fun _ => 1 }

/-- Instance with one storage technology for the scd witness. -/
def scdData : Data :=
  { trivialData with Storage_tech := ["Bat"] }

/-- Idle-storage assignment satisfying the scd constraints. -/
def scdVars : Vars :=
  { trivialVars with z_scd := fun _ _ _ => 1 }

/-- Concrete retrofit instance with one storage technology over the full
24-step, 365-day index sets. -/
def chainData : Data :=
  { trivialData with
      Time_steps := List.range' 1 24
      Days := List.range' 1 365
      Storage_tech := ["Bat"] }

end EHR

namespace EHDrive

lemma arange_uniform (cmin cmax : ℚ) (n : ℕ) (h : cmin < cmax) :
    arange cmin cmax ((cmax - cmin) / (n + 1)) =
      (List.range (n + 1)).map
        (fun (k : ℕ) => cmin + (k : ℚ) * ((cmax - cmin) / (n + 1))) := by
  unfold arange
  have hne : cmax - cmin ≠ 0 := sub_ne_zero.2 (ne_of_gt h)
  have hq : (cmax - cmin) / ((cmax - cmin) / ((n : ℚ) + 1)) = ((n + 1 : ℕ) : ℚ) := by
    rw [div_div_eq_mul_div, mul_comm, mul_div_assoc, div_self hne, mul_one]
    push_cast; ring
  rw [hq, Int.ceil_natCast, Int.toNat_natCast]

lemma steps_getD (cmin cmax : ℚ) (n : ℕ) (h : cmin < cmax) (j : ℕ) (hj : j < n + 1) :
    ((arange cmin cmax ((cmax - cmin) / (n + 1))).reverse).getD j 0 =
      cmin + ((n : ℚ) - (j : ℚ)) * ((cmax - cmin) / (n + 1)) := by
  rw [arange_uniform cmin cmax n h]
  rw [List.getD_eq_getElem _ _ (by simpa using by omega)]
  simp only [List.getElem_reverse, List.getElem_map, List.getElem_range, List.length_map,
    List.length_range]
  have hnj : n + 1 - 1 - j = n - j := by omega
  rw [hnj]
  have hc : ((n - j : ℕ) : ℚ) = (n : ℚ) - (j : ℚ) := by
    have := Nat.cast_sub (by omega : j ≤ n) (R := ℚ)
    simpa using this
  rw [hc]

lemma epsSched_strict_decreasing (cmin cmax : ℚ) (n : ℕ) (h : cmin < cmax) :
    (epsSched cmin cmax n).Chain' (fun a b => b < a) := by
  unfold epsSched
  rw [List.chain'_map, List.chain'_range_succ]
  intro i hi
  have hs : 0 < (cmax - cmin) / ((n : ℚ) + 1) := by
    apply div_pos (sub_pos.2 h)
    positivity
  have hc : ((i + 1 : ℕ) : ℚ) = (i : ℚ) + 1 := by push_cast; ring
  rw [hc]
  nlinarith [hs]

lemma epsSched_length (cmin cmax : ℚ) (n : ℕ) :
    (epsSched cmin cmax n).length = n + 1 := by
  simp [epsSched]

lemma pareto_core_spec (eps0 cmin cmax : ℚ) (n : ℕ) (hn : n ≠ 0) (h : cmin < cmax) :
    pareto_core eps0 n cmax cmin =
      (⟨true, false, eps0⟩ :: ⟨false, true, eps0⟩ ::
        (epsSched cmin cmax n).map (fun e => ⟨true, false, e⟩),
       ⟨true, false, eps0⟩ ::
        (epsSched cmin cmax n).map (fun e => ⟨true, false, e⟩)) := by
  have hlist : (List.range (n + 1)).map
      (fun j => SolveCall.mk true false
        (((arange cmin cmax ((cmax - cmin) / (n + 1))).reverse).getD j 0)) =
      (epsSched cmin cmax n).map (fun e => SolveCall.mk true false e) := by
    unfold epsSched
    rw [List.map_map]
    apply List.map_congr_left
    intro j hj
    simp only [Function.comp_apply]
    rw [steps_getD cmin cmax n h j (List.mem_range.1 hj)]
  unfold pareto_core
  rw [if_neg hn]
  simp only [hlist]

end EHDrive

/-- C1: in multi-objective mode with requested point count N at least 1,
after the cost anchor records C_max and the carbon anchor records C_min
(inflated by 1.01 in the retrofit variant), the driver performs exactly
N + 1 further cost-minimization solves with epsilon set successively to
C_min + k * (C_max - C_min) / (N + 1) for k = N down to 0 (the epsSched
list), the ceilings are strictly decreasing, and the assembled results
list holds exactly N + 2 entries: the cost anchor followed by the N + 1
epsilon-constrained solves. -/
theorem C1_pareto_epsilon_schedule (n : ℕ) (hn : 1 ≤ n)
    (cmax cmin rmax rrep : ℚ) (hlt : cmin < cmax)
    (hrlt : rrep * (101 / 100) < rmax) :
    EHDrive.eh_pareto n cmax cmin =
      (⟨true, false, EHDrive.eh_epsilon_init⟩ ::
        ⟨false, true, EHDrive.eh_epsilon_init⟩ ::
        (EHDrive.epsSched cmin cmax n).map (fun e => ⟨true, false, e⟩),
       ⟨true, false, EHDrive.eh_epsilon_init⟩ ::
        (EHDrive.epsSched cmin cmax n).map (fun e => ⟨true, false, e⟩)) ∧
    (EHDrive.epsSched cmin cmax n).length = n + 1 ∧
    (EHDrive.epsSched cmin cmax n).Chain' (fun a b => b < a) ∧
    (EHDrive.eh_pareto n cmax cmin).2.length = n + 2 ∧
    EHDrive.ehr_pareto n rmax rrep =
      (⟨true, false, EHDrive.ehr_epsilon_init⟩ ::
        ⟨false, true, EHDrive.ehr_epsilon_init⟩ ::
        (EHDrive.epsSched (rrep * (101 / 100)) rmax n).map
          (fun e => ⟨true, false, e⟩),
       ⟨true, false, EHDrive.ehr_epsilon_init⟩ ::
        (EHDrive.epsSched (rrep * (101 / 100)) rmax n).map
          (fun e => ⟨true, false, e⟩)) ∧
    (EHDrive.epsSched (rrep * (101 / 100)) rmax n).Chain' (fun a b => b < a) ∧
    (EHDrive.ehr_pareto n rmax rrep).2.length = n + 2 := by
  have hn0 : n ≠ 0 := by omega
  have h1 := EHDrive.pareto_core_spec EHDrive.eh_epsilon_init cmin cmax n hn0 hlt
  have h2 := EHDrive.pareto_core_spec EHDrive.ehr_epsilon_init
    (rrep * (101 / 100)) rmax n hn0 hrlt
  refine ⟨h1, EHDrive.epsSched_length cmin cmax n,
    EHDrive.epsSched_strict_decreasing cmin cmax n hlt, ?_, h2,
    EHDrive.epsSched_strict_decreasing _ rmax n hrlt, ?_⟩
  · show (EHDrive.pareto_core _ n cmax cmin).2.length = n + 2
    rw [h1]
    simp [EHDrive.epsSched_length]
  · show (EHDrive.pareto_core _ n rmax _).2.length = n + 2
    rw [h2]
    simp [EHDrive.epsSched_length]

/-- Witness for C1 at N = 1, C_min = 0, C_max = 4 (basic variant) and
reported carbon minimum 0, C_max = 4 (retrofit variant). -/
theorem C1_pareto_epsilon_schedule_witness :
    ((0 : ℚ) < 4 ∧ (0 : ℚ) * (101 / 100) < 4) ∧
    (EHDrive.epsSched 0 4 1).Chain' (fun a b => b < a) ∧
    (EHDrive.eh_pareto 1 4 0).2.length = 1 + 2 :=
  ⟨⟨by norm_num, by norm_num⟩,
   (C1_pareto_epsilon_schedule 1 (by norm_num) 4 0 4 0 (by norm_num)
      (by norm_num)).2.2.1,
   (C1_pareto_epsilon_schedule 1 (by norm_num) 4 0 4 0 (by norm_num)
      (by norm_num)).2.2.2.1⟩

/-- C7 (amended): in carbon-only mode both drivers perform exactly two
solves, first minimizing carbon with epsilon untouched, then minimizing
cost; the basic variant sets epsilon to the recorded carbon minimum itself
(no slack factor), while the retrofit variant multiplies it by 1.01; the
reported result is that of the second solve. -/
theorem C7_carbon_only_two_solves (v : ℚ) :
    EHDrive.eh_carbon_mode v =
      [⟨false, true, EHDrive.eh_epsilon_init⟩, ⟨true, false, v⟩] ∧
    EHDrive.ehr_carbon_mode v =
      [⟨false, true, EHDrive.ehr_epsilon_init⟩,
       ⟨true, false, v * (101 / 100)⟩] ∧
    (EHDrive.eh_carbon_mode v).length = 2 ∧
    (EHDrive.ehr_carbon_mode v).length = 2 :=
  ⟨rfl, rfl, rfl, rfl⟩

/-- Counterexample for C7 as stated: in the basic variant with a recorded
carbon minimum of 100, the epsilon of the second solve is 100, not
100 * 1.01. -/
theorem C7_counterexample_no_slack_in_basic :
    ((EHDrive.eh_carbon_mode 100).getD 1 ⟨false, false, 0⟩).eps ≠
      100 * (101 / 100) := by
  simp [EHDrive.eh_carbon_mode, EHDrive.carbon_mode_core, List.getD]
  norm_num

/-- C8: in multi-objective mode with N = 0 the drivers treat the request
as a valid case: after the two anchors exactly one further cost solve is
performed with epsilon equal to the recorded carbon minimum, and its
result is stored at index 1 of the two-slot results list. -/
theorem C8_pareto_zero_points (cmax v rmax w : ℚ) :
    EHDrive.eh_pareto 0 cmax v =
      ([⟨true, false, EHDrive.eh_epsilon_init⟩,
        ⟨false, true, EHDrive.eh_epsilon_init⟩, ⟨true, false, v⟩],
       [⟨true, false, EHDrive.eh_epsilon_init⟩, ⟨true, false, v⟩]) ∧
    (EHDrive.eh_pareto 0 cmax v).2.length = 2 ∧
    (EHDrive.eh_pareto 0 cmax v).2.getD 1 ⟨false, false, 0⟩ =
      ⟨true, false, v⟩ ∧
    EHDrive.ehr_pareto 0 rmax w =
      ([⟨true, false, EHDrive.ehr_epsilon_init⟩,
        ⟨false, true, EHDrive.ehr_epsilon_init⟩,
        ⟨true, false, w * (101 / 100)⟩],
       [⟨true, false, EHDrive.ehr_epsilon_init⟩,
        ⟨true, false, w * (101 / 100)⟩]) ∧
    (EHDrive.ehr_pareto 0 rmax w).2.length = 2 :=
  ⟨rfl, rfl, rfl, rfl, rfl⟩

/-- C6 (code bug): the retrofit variant initializes the mutable epsilon
parameter to 0, not to a value dominating attainable total carbon, and the
carbon constraint Total_carbon <= epsilon is always generated; in cost-only
mode and at the Pareto cost-anchor solve epsilon still holds 0, so the
solve is restricted to zero-carbon assignments.  Concretely, the gas
instance admits an assignment satisfying every other generated constraint
with total carbon 1, and that assignment violates the carbon constraint at
the initial epsilon.  In the basic variant epsilon starts at 10 ** 8 and
only assignments with larger total carbon are cut. -/
theorem C6_cost_anchor_epsilon_bug :
    EHR.ConstraintsExceptCarbon 1 EHR.gasData EHR.gasVars ∧
    EHR.gasVars.Total_carbon = 1 ∧
    EHR.epsilon_init = 0 ∧
    ¬ EHR.Carbon_constraint EHR.gasVars EHR.epsilon_init ∧
    (∀ w : EHR.Vars, EHR.Carbon_constraint w EHR.epsilon_init →
      w.Total_carbon ≤ 0) ∧
    (EHDrive.ehr_cost_mode.getD 0 ⟨false, false, 0⟩).eps = EHR.epsilon_init ∧
    (∀ (npfp : ℕ) (cmax rep : ℚ),
      ((EHDrive.ehr_pareto npfp cmax rep).1.getD 0 ⟨false, false, 0⟩).eps =
        EHR.epsilon_init) ∧
    (∀ v : EH.Vars, v.Total_carbon ≤ EHDrive.eh_epsilon_init →
      EH.Carbon_constraint v EHDrive.eh_epsilon_init) := by
  refine ⟨?_, rfl, rfl, ?_, ?_, rfl, ?_, ?_⟩
  · have hne : ¬ ("Gas" = "Elec") := by decide
    norm_num [hne, EHR.ConstraintsExceptCarbon, EHR.Domains, EHR.Load_balance,
      EHR.Capacity_constraint, EHR.Min_installable_capacity,
      EHR.Min_installable_capacity_2, EHR.Solar_input_initial,
      EHR.Solar_self_consumption_constr, EHR.Minimum_part_load_constr1,
      EHR.Minimum_part_load_constr2, EHR.Fixed_cost_constr,
      EHR.Roof_area_non_violation, EHR.Number_CO2_certificates_constr,
      EHR.Storage_balance, EHR.Storage_charg_rate_constr,
      EHR.Storage_discharg_rate_constr, EHR.Storage_cap_constr,
      EHR.Max_allowable_storage_cap, EHR.Fixed_cost_storage,
      EHR.scd1_constr, EHR.scd2_constr, EHR.scd3_constr, EHR.scd4_constr,
      EHR.scd5_constr, EHR.scd6_constr, EHR.scd7_constr, EHR.scd8_constr,
      EHR.One_retrofit_state, EHR.Embodied_insulation_constr,
      EHR.Cost_insulation_constr, EHR.Embodied_conv_constr,
      EHR.Embodied_stor_constr, EHR.Cost_conv_constr, EHR.Cost_stor_constr,
      EHR.Elec_import_cost_constr, EHR.Others_import_cost_constr,
      EHR.Elec_export_cost_constr, EHR.Elec_import_emissions_constr,
      EHR.Others_import_emissions_constr, EHR.Elec_export_emissions_constr,
      EHR.Import_cost_def, EHR.Export_profit_def, EHR.Investment_cost_def,
      EHR.Total_cost_def, EHR.Total_carbon_def, EHR.z1_rules, EHR.z2_rules,
      EHR.z3_rules, EHR.z4_rules, EHR.z5_rules, EHR.gasData, EHR.gasVars,
      EHR.trivialData, EHR.trivialVars, qsum, IsBinary, IsNonNegInteger,
      EHR.BigM, EHR.BigM_2, EHR.min_install, EHR.er, EHR.CRF_retrofit,
      EHR.CRF_network, List.filter_cons, List.filter_nil]
  · norm_num [EHR.Carbon_constraint, EHR.gasVars, EHR.trivialVars,
      EHR.epsilon_init]
  · intro w hw
    exact hw
  · intro npfp cmax rep
    unfold EHDrive.ehr_pareto EHDrive.pareto_core
    by_cases h : npfp = 0 <;>
      simp [h, List.getD, EHDrive.ehr_epsilon_init, EHR.epsilon_init]
  · intro v hv
    exact hv

/-- Counterexample for C5 as stated: in the retrofit variant the generated
energy balance holds for the PV instance (production partly self-consumed,
partly exported), while the claimed equality with an export term on the
right-hand side and all conversion technologies in the sum fails there. -/
theorem C5_counterexample_export_term :
    EHR.Load_balance EHR.balanceData EHR.balanceVars ∧
    ¬ EHR.Load_balance_as_claimed EHR.balanceData EHR.balanceVars := by
  constructor
  · norm_num [EHR.Load_balance, EHR.balanceData, EHR.balanceVars,
      EHR.trivialData, EHR.trivialVars, qsum, List.filter_cons,
      List.filter_nil]
  · intro hcl
    have h := hcl "Elec" (by norm_num [EHR.balanceData, EHR.trivialData])
      1 (by norm_num [EHR.balanceData, EHR.trivialData])
      1 (by norm_num [EHR.balanceData, EHR.trivialData])
    norm_num [EHR.balanceData, EHR.balanceVars, EHR.trivialData,
      EHR.trivialVars, qsum, List.filter_cons, List.filter_nil] at h

/-- C5 (amended): the basic-variant energy balance is exactly as claimed
(imports plus conversion output plus storage net discharge equals scaled
demand plus exports); the retrofit-variant balance instead excludes PV
from the conversion sum, adds the solar self-consumption credit, weights
demand by the retrofit binaries, and carries no export term. -/
theorem C5_load_balance_forms (D : EH.Data) (v : EH.Vars)
    (R : EHR.Data) (w : EHR.Vars) :
    (EH.Load_balance D v ↔ EH.Load_balance_as_claimed D v) ∧
    (EHR.Load_balance R w ↔
      ∀ ec ∈ R.Energy_carriers, ∀ d ∈ R.Days, ∀ t ∈ R.Time_steps,
        (if ec ∈ R.Energy_carriers_imp then w.P_import ec d t else 0) +
          qsum (R.Conversion_tech.filter (fun c => c ≠ "PV"))
            (fun c => w.P_conv c d t * R.Conv_factor c ec) +
          qsum R.Storage_tech
            (fun s => R.Storage_tech_coupling s ec *
              (w.Qout s d t - w.Qin s d t)) +
          qsum (R.PV_tech.filter (fun sol => 0 < R.Conv_factor sol ec))
            (fun sol => w.Solar_self_consumption sol d t)
        = (if ec ∈ R.Energy_carriers_dem then
            qsum R.Retrofit_scenarios
              (fun r => w.y_retrofit r * R.Demands ec r d t)
          else 0) /
            (if ec ∈ R.Energy_carriers_dem then R.Network_efficiency ec
             else 1)) :=
  ⟨Iff.rfl, Iff.rfl⟩

lemma qsum_cons {α : Type} (a : α) (l : List α) (f : α → ℚ) :
    qsum (a :: l) f = f a + qsum l f := by
  simp [qsum]

lemma qsum_binary_nonneg {α : Type} (l : List α) (f : α → ℚ)
    (hb : ∀ x ∈ l, f x = 0 ∨ f x = 1) : 0 ≤ qsum l f := by
  induction l with
  | nil => simp [qsum]
  | cons a l ih =>
      rw [qsum_cons]
      have ha := hb a (by simp)
      have hl := ih (fun x hx => hb x (by simp [hx]))
      rcases ha with h | h <;> rw [h] <;> linarith

lemma qsum_binary_eq_zero {α : Type} (l : List α) (f : α → ℚ)
    (hb : ∀ x ∈ l, f x = 0 ∨ f x = 1) (h0 : qsum l f = 0) :
    ∀ x ∈ l, f x = 0 := by
  induction l with
  | nil => simp
  | cons a l ih =>
      rw [qsum_cons] at h0
      have ha := hb a (by simp)
      have hl : ∀ x ∈ l, f x = 0 ∨ f x = 1 := fun x hx => hb x (by simp [hx])
      have hnn := qsum_binary_nonneg l f hl
      have haz : f a = 0 := by
        rcases ha with h | h
        · exact h
        · linarith
      have hlz : qsum l f = 0 := by linarith [haz ▸ h0]
      intro x hx
      rcases List.mem_cons.1 hx with rfl | hx'
      · exact haz
      · exact ih hl hlz x hx'

lemma qsum_binary_eq_one {α : Type} (l : List α) (f : α → ℚ)
    (hb : ∀ x ∈ l, f x = 0 ∨ f x = 1) (h1 : qsum l f = 1) :
    ∃ r ∈ l, f r = 1 ∧ ∀ q ∈ l, q ≠ r → f q = 0 := by
  induction l with
  | nil => simp [qsum] at h1
  | cons a l ih =>
      rw [qsum_cons] at h1
      have hl : ∀ x ∈ l, f x = 0 ∨ f x = 1 := fun x hx => hb x (by simp [hx])
      rcases hb a (by simp) with ha | ha
      · have h1l : qsum l f = 1 := by linarith [ha ▸ h1]
        obtain ⟨r, hrmem, hr1, hrz⟩ := ih hl h1l
        refine ⟨r, by simp [hrmem], hr1, ?_⟩
        intro q hq hqr
        rcases List.mem_cons.1 hq with rfl | hq'
        · exact ha
        · exact hrz q hq' hqr
      · have h0l : qsum l f = 0 := by linarith [ha ▸ h1]
        refine ⟨a, by simp, ha, ?_⟩
        intro q hq hqa
        rcases List.mem_cons.1 hq with rfl | hq'
        · exact absurd rfl hqa
        · exact qsum_binary_eq_zero l f hl h0l q hq'

/-- C2: for every assignment with binary retrofit-selection variables that
satisfies the exactly-one-retrofit-state equality, exactly one selection
binary equals 1 and all others equal 0. -/
theorem C2_retrofit_exclusivity (D : EHR.Data) (v : EHR.Vars)
    (hb : ∀ r ∈ D.Retrofit_scenarios, IsBinary (v.y_retrofit r))
    (h1 : EHR.One_retrofit_state D v) :
    ∃ r ∈ D.Retrofit_scenarios, v.y_retrofit r = 1 ∧
      ∀ q ∈ D.Retrofit_scenarios, q ≠ r → v.y_retrofit q = 0 :=
  qsum_binary_eq_one D.Retrofit_scenarios v.y_retrofit hb h1

/-- Witness for C2 on a two-scenario instance selecting the first one. -/
theorem C2_retrofit_exclusivity_witness :
    (∀ r ∈ EHR.twoRetData.Retrofit_scenarios,
      IsBinary (EHR.twoRetVars.y_retrofit r)) ∧
    EHR.One_retrofit_state EHR.twoRetData EHR.twoRetVars ∧
    ∃ r ∈ EHR.twoRetData.Retrofit_scenarios,
      EHR.twoRetVars.y_retrofit r = 1 ∧
      ∀ q ∈ EHR.twoRetData.Retrofit_scenarios, q ≠ r →
        EHR.twoRetVars.y_retrofit q = 0 := by
  have hb : ∀ r ∈ EHR.twoRetData.Retrofit_scenarios,
      IsBinary (EHR.twoRetVars.y_retrofit r) := by decide
  have h1 : EHR.One_retrofit_state EHR.twoRetData EHR.twoRetVars := by
    norm_num [EHR.One_retrofit_state, EHR.twoRetData, EHR.twoRetVars,
      EHR.trivialData, EHR.trivialVars, qsum]
    decide
  exact ⟨hb, h1, C2_retrofit_exclusivity EHR.twoRetData EHR.twoRetVars hb h1⟩

lemma bigM_linearization (M y x z : ℚ) (hb : IsBinary y)
    (h1 : 0 ≤ z) (h2 : z ≤ M * y) (h3 : 0 ≤ x - z)
    (h4 : x - z ≤ M * (1 - y)) :
    (y = 1 → z = x) ∧ (y = 0 → z = 0) ∧ x ≤ M := by
  rcases hb with h | h <;> subst h
  · refine ⟨fun h01 => absurd h01.symm (by norm_num), fun _ => ?_, ?_⟩
    · have : z ≤ 0 := by linarith [h2]
      linarith
    · have hz : z = 0 := by nlinarith
      nlinarith
  · refine ⟨fun _ => ?_, fun h10 => absurd h10.symm (by norm_num), ?_⟩
    · nlinarith
    · nlinarith

/-- C3: for every assignment with binary retrofit-selection variables
satisfying the four big-M auxiliary inequalities, each auxiliary z1..z5
tied to binary y_retrofit and its continuous variable equals that variable
when the binary is 1 and equals 0 when the binary is 0, and feasibility
forces the continuous variable below BigM. -/
theorem C3_bilinear_linearization (D : EHR.Data) (v : EHR.Vars)
    (hb : ∀ r ∈ D.Retrofit_scenarios, IsBinary (v.y_retrofit r))
    (hz1 : EHR.z1_rules D v) (hz2 : EHR.z2_rules D v)
    (hz3 : EHR.z3_rules D v) (hz4 : EHR.z4_rules D v)
    (hz5 : EHR.z5_rules D v) :
    (∀ ec ∈ D.Energy_carriers_imp, ∀ r ∈ D.Retrofit_scenarios,
      ∀ d ∈ D.Days, ∀ t ∈ D.Time_steps,
        (v.y_retrofit r = 1 → v.z1 ec r d t = v.P_import ec d t) ∧
        (v.y_retrofit r = 0 → v.z1 ec r d t = 0) ∧
        v.P_import ec d t ≤ EHR.BigM) ∧
    (∀ ec ∈ D.Energy_carriers_exp, ∀ r ∈ D.Retrofit_scenarios,
      ∀ d ∈ D.Days, ∀ t ∈ D.Time_steps,
        (v.y_retrofit r = 1 → v.z2 ec r d t = v.P_export ec d t) ∧
        (v.y_retrofit r = 0 → v.z2 ec r d t = 0) ∧
        v.P_export ec d t ≤ EHR.BigM) ∧
    (∀ sol ∈ D.Solar_tech, ∀ r ∈ D.Retrofit_scenarios,
        (v.y_retrofit r = 1 → v.z3 sol r = v.Conv_cap sol) ∧
        (v.y_retrofit r = 0 → v.z3 sol r = 0) ∧
        v.Conv_cap sol ≤ EHR.BigM) ∧
    (∀ s ∈ D.Storage_tech, ∀ r ∈ D.Retrofit_scenarios,
      ∀ d ∈ D.Days, ∀ t ∈ D.Time_steps,
        (v.y_retrofit r = 1 → v.z4 s r d t = v.Qin s d t) ∧
        (v.y_retrofit r = 0 → v.z4 s r d t = 0) ∧
        v.Qin s d t ≤ EHR.BigM) ∧
    (∀ s ∈ D.Storage_tech, ∀ r ∈ D.Retrofit_scenarios,
      ∀ d ∈ D.Days, ∀ t ∈ D.Time_steps,
        (v.y_retrofit r = 1 → v.z5 s r d t = v.Qout s d t) ∧
        (v.y_retrofit r = 0 → v.z5 s r d t = 0) ∧
        v.Qout s d t ≤ EHR.BigM) := by
  refine ⟨?_, ?_, ?_, ?_, ?_⟩
  · intro ec hec r hr d hd t ht
    obtain ⟨g1, g2, g3, g4⟩ := hz1 ec hec r hr d hd t ht
    have h := bigM_linearization EHR.BigM (v.y_retrofit r) (v.P_import ec d t)
      (v.z1 ec r d t) (hb r hr) g1 g2 g3 g4
    exact h
  · intro ec hec r hr d hd t ht
    obtain ⟨g1, g2, g3, g4⟩ := hz2 ec hec r hr d hd t ht
    have h := bigM_linearization EHR.BigM (v.y_retrofit r) (v.P_export ec d t)
      (v.z2 ec r d t) (hb r hr) g1 g2 g3 g4
    exact h
  · intro sol hsol r hr
    obtain ⟨g1, g2, g3, g4⟩ := hz3 sol hsol r hr
    have h := bigM_linearization EHR.BigM (v.y_retrofit r) (v.Conv_cap sol)
      (v.z3 sol r) (hb r hr) g1 g2 g3 g4
    exact h
  · intro s hs r hr d hd t ht
    obtain ⟨g1, g2, g3, g4⟩ := hz4 s hs r hr d hd t ht
    have h := bigM_linearization EHR.BigM (v.y_retrofit r) (v.Qin s d t)
      (v.z4 s r d t) (hb r hr) g1 g2 g3 g4
    exact h
  · intro s hs r hr d hd t ht
    obtain ⟨g1, g2, g3, g4⟩ := hz5 s hs r hr d hd t ht
    have h := bigM_linearization EHR.BigM (v.y_retrofit r) (v.Qout s d t)
      (v.z5 s r d t) (hb r hr) g1 g2 g3 g4
    exact h

/-- Witness for C3 on an instance with one imported carrier, the scenario
selected and the z1 auxiliary equal to the import flow. -/
theorem C3_bilinear_linearization_witness :
    (∀ r ∈ EHR.linData.Retrofit_scenarios,
      IsBinary (EHR.linVars.y_retrofit r)) ∧
    EHR.z1_rules EHR.linData EHR.linVars ∧
    (∀ ec ∈ EHR.linData.Energy_carriers_imp,
      ∀ r ∈ EHR.linData.Retrofit_scenarios,
      ∀ d ∈ EHR.linData.Days, ∀ t ∈ EHR.linData.Time_steps,
        (EHR.linVars.y_retrofit r = 1 →
          EHR.linVars.z1 ec r d t = EHR.linVars.P_import ec d t) ∧
        (EHR.linVars.y_retrofit r = 0 → EHR.linVars.z1 ec r d t = 0) ∧
        EHR.linVars.P_import ec d t ≤ EHR.BigM) := by
  have hb : ∀ r ∈ EHR.linData.Retrofit_scenarios,
      IsBinary (EHR.linVars.y_retrofit r) := by decide
  have hz1 : EHR.z1_rules EHR.linData EHR.linVars := by
    norm_num [EHR.z1_rules, EHR.linData, EHR.linVars, EHR.trivialData,
      EHR.trivialVars, EHR.BigM]
  have hz2 : EHR.z2_rules EHR.linData EHR.linVars := by
    norm_num [EHR.z2_rules, EHR.linData, EHR.trivialData]
  have hz3 : EHR.z3_rules EHR.linData EHR.linVars := by
    norm_num [EHR.z3_rules, EHR.linData, EHR.trivialData]
  have hz4 : EHR.z4_rules EHR.linData EHR.linVars := by
    norm_num [EHR.z4_rules, EHR.linData, EHR.trivialData]
  have hz5 : EHR.z5_rules EHR.linData EHR.linVars := by
    norm_num [EHR.z5_rules, EHR.linData, EHR.trivialData]
  exact ⟨hb, hz1, (C3_bilinear_linearization EHR.linData EHR.linVars
    hb hz1 hz2 hz3 hz4 hz5).1⟩

/-- C9: for every assignment with binary charge/discharge indicators that
satisfies the eight scd constraints, a strictly positive charge flow
forces the charge indicator to 1, a strictly positive discharge flow
forces the discharge indicator to 1, z_scd is fixed at 1, the indicators
sum to at most 1, and simultaneous charging and discharging is infeasible. -/
theorem C9_no_simultaneous_charge_discharge (D : EHR.Data) (v : EHR.Vars)
    (hbin : ∀ s ∈ D.Storage_tech, ∀ d ∈ D.Days, ∀ t ∈ D.Time_steps,
      IsBinary (v.QIin s d t))
    (hbout : ∀ s ∈ D.Storage_tech, ∀ d ∈ D.Days, ∀ t ∈ D.Time_steps,
      IsBinary (v.QIout s d t))
    (h1 : EHR.scd1_constr D v) (h2 : EHR.scd2_constr D v)
    (h3 : EHR.scd3_constr D v) (h4 : EHR.scd4_constr D v)
    (h5 : EHR.scd5_constr D v) (h6 : EHR.scd6_constr D v)
    (h7 : EHR.scd7_constr D v) (h8 : EHR.scd8_constr D v) :
    ∀ s ∈ D.Storage_tech, ∀ d ∈ D.Days, ∀ t ∈ D.Time_steps,
      (0 < v.Qin s d t → v.QIin s d t = 1) ∧
      (0 < v.Qout s d t → v.QIout s d t = 1) ∧
      v.z_scd s d t = 1 ∧
      v.QIin s d t + v.QIout s d t ≤ 1 ∧
      ¬ (0 < v.Qin s d t ∧ 0 < v.Qout s d t) := by
  intro s hs d hd t ht
  have hz : v.z_scd s d t = 1 := h8 s hs d hd t ht
  have hsum : v.QIin s d t + v.QIout s d t ≤ 1 := by
    have := h7 s hs d hd t ht
    rw [hz] at this
    linarith
  have hin : 0 < v.Qin s d t → v.QIin s d t = 1 := by
    intro hq
    have hlow := h1 s hs d hd t ht
    have hpos : 0 < v.QIin s d t := lt_of_lt_of_le (by positivity) hlow
    rcases hbin s hs d hd t ht with h0 | h0
    · rw [h0] at hpos; exact absurd hpos (by norm_num)
    · exact h0
  have hout : 0 < v.Qout s d t → v.QIout s d t = 1 := by
    intro hq
    have hlow := h2 s hs d hd t ht
    have hpos : 0 < v.QIout s d t := lt_of_lt_of_le (by positivity) hlow
    rcases hbout s hs d hd t ht with h0 | h0
    · rw [h0] at hpos; exact absurd hpos (by norm_num)
    · exact h0
  refine ⟨hin, hout, hz, hsum, ?_⟩
  rintro ⟨hqi, hqo⟩
  have e1 := hin hqi
  have e2 := hout hqo
  rw [e1, e2] at hsum
  norm_num at hsum

/-- Witness for C9 on an idle single-storage instance. -/
theorem C9_no_simultaneous_charge_discharge_witness :
    EHR.scd8_constr EHR.scdData EHR.scdVars ∧
    EHR.scd1_constr EHR.scdData EHR.scdVars ∧
    ∀ s ∈ EHR.scdData.Storage_tech, ∀ d ∈ EHR.scdData.Days,
      ∀ t ∈ EHR.scdData.Time_steps,
        ¬ (0 < EHR.scdVars.Qin s d t ∧ 0 < EHR.scdVars.Qout s d t) := by
  have hbin : ∀ s ∈ EHR.scdData.Storage_tech, ∀ d ∈ EHR.scdData.Days,
      ∀ t ∈ EHR.scdData.Time_steps, IsBinary (EHR.scdVars.QIin s d t) := by
    decide
  have hbout : ∀ s ∈ EHR.scdData.Storage_tech, ∀ d ∈ EHR.scdData.Days,
      ∀ t ∈ EHR.scdData.Time_steps, IsBinary (EHR.scdVars.QIout s d t) := by
    decide
  have g1 : EHR.scd1_constr EHR.scdData EHR.scdVars := by
    norm_num [EHR.scd1_constr, EHR.scdData, EHR.scdVars, EHR.trivialData,
      EHR.trivialVars]
  have g2 : EHR.scd2_constr EHR.scdData EHR.scdVars := by
    norm_num [EHR.scd2_constr, EHR.scdData, EHR.scdVars, EHR.trivialData,
      EHR.trivialVars]
  have g3 : EHR.scd3_constr EHR.scdData EHR.scdVars := by
    norm_num [EHR.scd3_constr, EHR.scdData, EHR.scdVars, EHR.trivialData,
      EHR.trivialVars, EHR.er]
  have g4 : EHR.scd4_constr EHR.scdData EHR.scdVars := by
    norm_num [EHR.scd4_constr, EHR.scdData, EHR.scdVars, EHR.trivialData,
      EHR.trivialVars, EHR.er]
  have g5 : EHR.scd5_constr EHR.scdData EHR.scdVars := by
    norm_num [EHR.scd5_constr, EHR.scdData, EHR.scdVars, EHR.trivialData,
      EHR.trivialVars]
  have g6 : EHR.scd6_constr EHR.scdData EHR.scdVars := by
    norm_num [EHR.scd6_constr, EHR.scdData, EHR.scdVars, EHR.trivialData,
      EHR.trivialVars]
  have g7 : EHR.scd7_constr EHR.scdData EHR.scdVars := by
    norm_num [EHR.scd7_constr, EHR.scdData, EHR.scdVars, EHR.trivialData,
      EHR.trivialVars]
  have g8 : EHR.scd8_constr EHR.scdData EHR.scdVars := by
    norm_num [EHR.scd8_constr, EHR.scdData, EHR.scdVars, EHR.trivialData,
      EHR.trivialVars]
  refine ⟨g8, g1, ?_⟩
  intro s hs d hd t ht
  exact (C9_no_simultaneous_charge_discharge EHR.scdData EHR.scdVars
    hbin hbout g1 g2 g3 g4 g5 g6 g7 g8 s hs d hd t ht).2.2.2.2

lemma maxList_range'_aux (s n : ℕ) :
    maxList (List.range' s (n + 1)) = s + n := by
  induction n generalizing s with
  | zero => simp [maxList, List.range'_succ]
  | succ n ih =>
      rw [List.range'_succ]
      unfold maxList at ih ⊢
      simp only [List.foldr_cons]
      rw [ih (s + 1)]
      omega

lemma maxList_range' (T : ℕ) (hT : 1 ≤ T) :
    maxList (List.range' 1 T) = T := by
  obtain ⟨n, rfl⟩ : ∃ n, T = n + 1 := ⟨T - 1, by omega⟩
  rw [maxList_range'_aux]
  omega

lemma EH_trivial_storage_balance (tempRes : ℕ) (D : EH.Data) :
    EH.Storage_balance tempRes D EH.trivialVars := by
  intro s hs d hd t ht
  unfold EH.Storage_balance_rule
  split_ifs <;> norm_num [EH.trivialVars]

lemma EHR_trivial_storage_balance (tempRes : ℕ) (D : EHR.Data) :
    EHR.Storage_balance tempRes D EHR.trivialVars := by
  intro s hs d hd t ht
  unfold EHR.Storage_balance_rule
  split_ifs <;> norm_num [EHR.trivialVars, qsum]

set_option maxRecDepth 10000 in
/-- C4: any assignment satisfying the generated storage-balance
constraints chains the state of charge as the specification describes: in
typical-day mode the first time-step of each day is tied to the last
time-step of the same day (time step 24 in the basic variant, the maximal
time step T in the retrofit variant); in full-horizon mode the first
time-step of day 1 is tied to the last time-step of day 365 and the first
time-step of every other day d to the last time-step of day d - 1. -/
theorem C4_storage_soc_chaining
    (D1 D2 : EH.Data) (v1 v2 : EH.Vars) (R1 R2 : EHR.Data)
    (w1 w2 : EHR.Vars) (T U : ℕ)
    (hD1t : D1.Time_steps = List.range' 1 24)
    (hD2t : D2.Time_steps = List.range' 1 24)
    (hD2d : D2.Days = List.range' 1 365)
    (hT : 1 ≤ T) (hR1t : R1.Time_steps = List.range' 1 T)
    (hU : 1 ≤ U) (hR2t : R2.Time_steps = List.range' 1 U)
    (hR2d : R2.Days = List.range' 1 365)
    (hb1 : EH.Storage_balance 1 D1 v1)
    (hb2 : EH.Storage_balance 2 D2 v2)
    (hc1 : EHR.Storage_balance 1 R1 w1)
    (hc2 : EHR.Storage_balance 2 R2 w2) :
    (∀ s ∈ D1.Storage_tech, ∀ d ∈ D1.Days,
      v1.SoC s d 1 = (1 - D1.Storage_standing_losses s) * v1.SoC s d 24 +
        D1.Storage_charging_eff s * v1.Qin s d 1 -
        (1 / D1.Storage_discharging_eff s) * v1.Qout s d 1) ∧
    (∀ s ∈ D2.Storage_tech, ∀ d ∈ D2.Days, d ≠ 1 →
      v2.SoC s d 1 = (1 - D2.Storage_standing_losses s) *
          v2.SoC s (d - 1) 24 +
        D2.Storage_charging_eff s * v2.Qin s d 1 -
        (1 / D2.Storage_discharging_eff s) * v2.Qout s d 1) ∧
    (∀ s ∈ D2.Storage_tech,
      v2.SoC s 1 1 = (1 - D2.Storage_standing_losses s) * v2.SoC s 365 24 +
        D2.Storage_charging_eff s * v2.Qin s 1 1 -
        (1 / D2.Storage_discharging_eff s) * v2.Qout s 1 1) ∧
    (∀ s ∈ R1.Storage_tech, ∀ d ∈ R1.Days,
      w1.SoC s d 1 = (1 - R1.Storage_standing_losses s) * w1.SoC s d T +
        R1.Storage_charging_eff s * w1.Qin s d 1 -
        (1 / R1.Storage_discharging_eff s) * w1.Qout s d 1) ∧
    (∀ s ∈ R2.Storage_tech, ∀ d ∈ R2.Days, d ≠ 1 →
      w2.SoC s d 1 = (1 - R2.Storage_standing_losses s) *
          w2.SoC s (d - 1) U +
        R2.Storage_charging_eff s * w2.Qin s d 1 -
        (1 / R2.Storage_discharging_eff s) * w2.Qout s d 1) ∧
    (∀ s ∈ R2.Storage_tech,
      w2.SoC s 1 1 = (1 - R2.Storage_standing_losses s) * w2.SoC s 365 U +
        R2.Storage_charging_eff s * w2.Qin s 1 1 -
        (1 / R2.Storage_discharging_eff s) * w2.Qout s 1 1) := by
  have ht24 : (1 : ℕ) ∈ List.range' 1 24 := by decide
  refine ⟨?_, ?_, ?_, ?_, ?_, ?_⟩
  · intro s hs d hd
    have h := hb1 s hs d hd 1 (by rw [hD1t]; exact ht24)
    unfold EH.Storage_balance_rule at h
    norm_num at h
    simpa using h
  · intro s hs d hd hne
    have h := hb2 s hs d hd 1 (by rw [hD2t]; exact ht24)
    unfold EH.Storage_balance_rule at h
    norm_num at h
    split_ifs at h with hcond
    · exact absurd hcond hne
    · simpa using h
  · intro s hs
    have hd1 : (1 : ℕ) ∈ D2.Days := by
      rw [hD2d]; simp [List.mem_range'_1]
    have h := hb2 s hs 1 hd1 1 (by rw [hD2t]; exact ht24)
    unfold EH.Storage_balance_rule at h
    norm_num at h
    simpa using h
  · intro s hs d hd
    have ht1 : (1 : ℕ) ∈ R1.Time_steps := by
      rw [hR1t]; simp [List.mem_range'_1]; omega
    have h := hc1 s hs d hd 1 ht1
    unfold EHR.Storage_balance_rule at h
    norm_num at h
    rw [hR1t, maxList_range' T hT] at h
    simpa using h
  · intro s hs d hd hne
    have ht1 : (1 : ℕ) ∈ R2.Time_steps := by
      rw [hR2t]; simp [List.mem_range'_1]; omega
    have h := hc2 s hs d hd 1 ht1
    unfold EHR.Storage_balance_rule at h
    norm_num at h
    rw [hR2t, maxList_range' U hU] at h
    split_ifs at h with hcond
    · exact absurd hcond hne
    · simpa using h
  · intro s hs
    have hd1 : (1 : ℕ) ∈ R2.Days := by
      rw [hR2d]; simp [List.mem_range'_1]
    have ht1 : (1 : ℕ) ∈ R2.Time_steps := by
      rw [hR2t]; simp [List.mem_range'_1]; omega
    have h := hc2 s hs 1 hd1 1 ht1
    unfold EHR.Storage_balance_rule at h
    norm_num at h
    rw [hR2t, maxList_range' U hU] at h
    simpa using h

/-- Witness for C4 on the concrete 24-step, 365-day instances with one
storage technology and the all-zero assignment. -/
theorem C4_storage_soc_chaining_witness :
    EH.Storage_balance 1 EH.chainData EH.trivialVars ∧
    EH.Storage_balance 2 EH.chainData EH.trivialVars ∧
    EHR.Storage_balance 1 EHR.chainData EHR.trivialVars ∧
    EHR.Storage_balance 2 EHR.chainData EHR.trivialVars ∧
    (∀ s ∈ EH.chainData.Storage_tech, ∀ d ∈ EH.chainData.Days,
      EH.trivialVars.SoC s d 1 =
        (1 - EH.chainData.Storage_standing_losses s) *
          EH.trivialVars.SoC s d 24 +
        EH.chainData.Storage_charging_eff s * EH.trivialVars.Qin s d 1 -
        (1 / EH.chainData.Storage_discharging_eff s) *
          EH.trivialVars.Qout s d 1) ∧
    (∀ s ∈ EHR.chainData.Storage_tech,
      EHR.trivialVars.SoC s 1 1 =
        (1 - EHR.chainData.Storage_standing_losses s) *
          EHR.trivialVars.SoC s 365 24 +
        EHR.chainData.Storage_charging_eff s * EHR.trivialVars.Qin s 1 1 -
        (1 / EHR.chainData.Storage_discharging_eff s) *
          EHR.trivialVars.Qout s 1 1) := by
  have hb1 := EH_trivial_storage_balance 1 EH.chainData
  have hb2 := EH_trivial_storage_balance 2 EH.chainData
  have hc1 := EHR_trivial_storage_balance 1 EHR.chainData
  have hc2 := EHR_trivial_storage_balance 2 EHR.chainData
  have happ := C4_storage_soc_chaining EH.chainData EH.chainData
    EH.trivialVars EH.trivialVars EHR.chainData EHR.chainData
    EHR.trivialVars EHR.trivialVars 24 24 rfl rfl rfl (by norm_num) rfl
    (by norm_num) rfl rfl hb1 hb2 hc1 hc2
  exact ⟨hb1, hb2, hc1, hc2, happ.1, happ.2.2.2.2.2⟩

/-- C10: in both variants the generated discharging-rate constraint bounds
Qout by Storage_max_charge times the storage capacity, and the complete
generated constraint set is invariant under arbitrary changes of the
Storage_max_discharge parameter - that parameter occurs in no generated
constraint, so the declared maximum discharge rate never limits any
feasible discharge flow. -/
theorem C10_discharge_rate_uses_max_charge :
    (∀ (D : EH.Data) (v : EH.Vars) (g : String → ℚ) (tempRes : ℕ) (eps : ℚ),
      EH.Constraints tempRes D v eps ↔
        EH.Constraints tempRes { D with Storage_max_discharge := g } v eps) ∧
    (∀ (D : EH.Data) (v : EH.Vars), EH.Storage_discharg_rate_constr D v ↔
      ∀ s ∈ D.Storage_tech, ∀ d ∈ D.Days, ∀ t ∈ D.Time_steps,
        v.Qout s d t ≤ D.Storage_max_charge s * v.Storage_cap s) ∧
    (∀ (R : EHR.Data) (w : EHR.Vars) (g : String → ℚ) (tempRes : ℕ)
        (eps : ℚ),
      EHR.Constraints tempRes R w eps ↔
        EHR.Constraints tempRes { R with Storage_max_discharge := g } w eps) ∧
    (∀ (R : EHR.Data) (w : EHR.Vars), EHR.Storage_discharg_rate_constr R w ↔
      ∀ s ∈ R.Storage_tech, ∀ d ∈ R.Days, ∀ t ∈ R.Time_steps,
        w.Qout s d t ≤ R.Storage_max_charge s * w.Storage_cap s) := by
  refine ⟨fun D v g tempRes eps => ?_, fun D v => Iff.rfl,
    fun R w g tempRes eps => ?_, fun R w => Iff.rfl⟩
  · cases D; exact Iff.rfl
  · cases R; exact Iff.rfl
